import Mathlib

/-!
# graphics-and-shaders: frame driver, camera input, buffers and shader programs

A shallow embedding of `src/rendering/Renderer.cpp`, `src/rendering/Shader.cpp` and the
entry point `src/ShaderToy.cpp`.

Conventions of the embedding.

* A finite `float` or `double` value is the rational it denotes (`Scalar`). Every place
  where the code converts a value to a floating-point type, or computes in one, applies
  the rounding of that type, taken from an `Arith`. `Arith.ieee` rounds to nearest, ties to
  even, in IEEE 754 binary32 and binary64 (`Format.round`); `Arith.exact` does not round.
  Infinities, NaN and overflow are not modelled.
* A C++ member function becomes a function on the object it mutates. What an external
  collaborator (GLFW, OpenGL, the file system, ImGui) returns is an explicit argument or a
  field of `Env`; the calls a function issues to its collaborators are returned, in order,
  as a list of `Call`.
-/

namespace ShaderToy

/-- The value of a finite floating-point number, or an exact real result before it is
rounded. -/
abbrev Scalar := ℚ

/-! ## Floating-point rounding -/

/-- A binary floating-point format: the number of stored fraction bits (the precision is
one more) and the exponent of the smallest normal number. The exponent range is unbounded
above. -/
structure Format where
  fractionBits : ℕ
  emin : ℤ
  deriving DecidableEq

/-- IEEE 754 binary32, the type `float`. -/
def Format.binary32 : Format :=
  { fractionBits := 23, emin := -126 }

/-- IEEE 754 binary64, the type `double`. -/
def Format.binary64 : Format :=
  { fractionBits := 52, emin := -1022 }

/-- The two formats a floating-point member of the sources can have. -/
def Format.standard : List Format :=
  [Format.binary32, Format.binary64]

/-- Rounding to the nearest integer, ties to the even one. -/
def roundHalfEven (y : Scalar) : ℤ :=
  if y - ⌊y⌋ < 1 / 2 then ⌊y⌋
  else if 1 / 2 < y - ⌊y⌋ then ⌊y⌋ + 1
  else if ⌊y⌋ % 2 = 0 then ⌊y⌋ else ⌊y⌋ + 1

/-- The exponent of the binade of `x`, or `emin` for a subnormal magnitude. -/
def Format.exponent (F : Format) (x : Scalar) : ℤ :=
  max (Int.log 2 |x|) F.emin

/-- The spacing of the numbers of the format around `x`. -/
def Format.ulp (F : Format) (x : Scalar) : Scalar :=
  (2 : Scalar) ^ (F.exponent x - (F.fractionBits : ℤ))

/-- Rounding to the nearest number of the format, ties to even. -/
def Format.round (F : Format) (x : Scalar) : Scalar :=
  roundHalfEven (x / F.ulp x) * F.ulp x

/-- The roundings of the floating-point types the sources store and compute in. `float`
and `double` are fixed by the language; the types of the members that `Renderer.h`
declares, a header outside the sources, are taken as parameters. -/
structure Arith where
  /-- Rounding to `float`. -/
  toFloat : Scalar → Scalar
  /-- Rounding to `double`. -/
  toDouble : Scalar → Scalar
  /-- Rounding to the type of `Renderer::currentTime` and `Renderer::previousTime`. -/
  toTime : Scalar → Scalar
  /-- Rounding to the type of `Renderer::deltaTime`. -/
  toDelta : Scalar → Scalar
  /-- Rounding to the type of `lastX`, `lastY`, `xOffset`, `yOffset` of `RenderCamera`. -/
  toPointer : Scalar → Scalar

/-- IEEE 754 arithmetic, for given formats of the members declared in `Renderer.h`. -/
def Arith.ieee (time delta pointer : Format) : Arith :=
  { toFloat := Format.binary32.round
    toDouble := Format.binary64.round
    toTime := time.round
    toDelta := delta.round
    toPointer := pointer.round }

/-- Exact arithmetic: nothing is rounded. -/
def Arith.exact : Arith :=
  { toFloat := fun x => x
    toDouble := fun x => x
    toTime := fun x => x
    toDelta := fun x => x
    toPointer := fun x => x }

/-- Symbolic constants of the GLFW and OpenGL headers that the sources pass around. -/
inductive Const
  | GLFW_CONTEXT_VERSION_MAJOR | GLFW_CONTEXT_VERSION_MINOR
  | GLFW_OPENGL_PROFILE | GLFW_OPENGL_CORE_PROFILE | GLFW_OPENGL_FORWARD_COMPAT
  | GLFW_CURSOR | GLFW_CURSOR_NORMAL | GLFW_CURSOR_DISABLED
  | GLFW_KEY_ESCAPE
  | GL_TRUE | GL_FALSE
  | GL_DEPTH_TEST
  | GL_VERTEX_SHADER | GL_FRAGMENT_SHADER
  | GL_COMPILE_STATUS | GL_LINK_STATUS
  | GL_ARRAY_BUFFER | GL_ELEMENT_ARRAY_BUFFER | GL_STATIC_DRAW
  | GL_FLOAT | GL_UNSIGNED_INT | GL_TRIANGLES
  | GL_FRONT_AND_BACK | GL_POINT | GL_LINE | GL_FILL
  | GL_COLOR_BUFFER_BIT_or_GL_DEPTH_BUFFER_BIT
  deriving DecidableEq

/-- The functions the window layer is given as callbacks in `setup_window_data`. -/
inductive Callback
  | framebuffer_size_callback | mouse_callback | scroll_callback
  deriving DecidableEq

/-- A window handle (`GLFWwindow *`); `none` is `NULL`. -/
abbrev Window := Option Nat

/-- One call issued to an external collaborator, with its arguments. -/
inductive Call
  -- text written to `std::cout`
  | print (text : String)
  -- GLFW
  | glfwInit
  | glfwWindowHint (hint : Const) (value : Const ⊕ Int)
  | glfwTerminate
  | glfwGetPrimaryMonitor
  | glfwCreateWindow (width height : Int) (title : String) (primaryMonitor : Bool)
  | glfwMakeContextCurrent (window : Window)
  | glfwSetFramebufferSizeCallback (window : Window) (cb : Callback)
  | glfwSetCursorPosCallback (window : Window) (cb : Callback)
  | glfwSetScrollCallback (window : Window) (cb : Callback)
  | glfwSetWindowAspectRatio (window : Window) (numer denom : Int)
  | gladLoadGLLoader
  | glfwWindowShouldClose (window : Window)
  | glfwSetWindowShouldClose (window : Window) (value : Bool)
  | glfwSwapBuffers (window : Window)
  | glfwPollEvents
  | glfwSwapInterval (interval : Int)
  | glfwGetKey (window : Window) (key : Const)
  | glfwGetTime
  | glfwGetWindowSize (window : Window)
  | glfwSetInputMode (window : Window) (mode value : Const)
  -- OpenGL: state, buffers, drawing
  | glEnable (cap : Const)
  | glViewport (x y width height : Int)
  | glClearColor (r g b a : Scalar)
  | glClear (mask : Const)
  | glPolygonMode (face mode : Const)
  | glGenVertexArrays (n : Int)
  | glGenBuffers (n : Int)
  | glBindVertexArray (array : Nat)
  | glBindBuffer (target : Const) (buffer : Nat)
  | glBufferData (target : Const) (size : Int) (usage : Const)
  | glEnableVertexAttribArray (index : Int)
  | glVertexAttribPointer (index size : Int) (type normalized : Const) (stride offset : Int)
  | glDrawArrays (mode : Const) (first count : Int)
  | glDrawElements (mode : Const) (count : Int) (type : Const) (offset : Int)
  | glDeleteVertexArrays (array : Nat)
  | glDeleteBuffers (buffer : Nat)
  -- OpenGL: shaders and programs
  | glCreateShader (type : Const)
  | glShaderSource (shader : Nat) (code : String)
  | glCompileShader (shader : Nat)
  | glGetShaderiv (shader : Nat) (pname : Const)
  | glGetShaderInfoLog (shader : Nat)
  | glCreateProgram
  | glAttachShader (program shader : Nat)
  | glLinkProgram (program : Nat)
  | glGetProgramiv (program : Nat) (pname : Const)
  | glGetProgramInfoLog (program : Nat)
  | glDeleteShader (shader : Nat)
  | glUseProgram (program : Nat)
  | glDeleteProgram (program : Nat)
  -- OpenGL: uniforms
  | glGetUniformLocation (program : Nat) (name : String)
  | glUniform1i (location : Int) (v0 : Int)
  | glUniform1f (location : Int) (v0 : Scalar)
  | glUniform2f (location : Int) (v0 v1 : Scalar)
  | glUniform3f (location : Int) (v0 v1 v2 : Scalar)
  | glUniform4f (location : Int) (v0 v1 v2 v3 : Scalar)
  | glUniformMatrix2fv (location : Int) (count : Int) (transpose : Const) (value : List Scalar)
  | glUniformMatrix3fv (location : Int) (count : Int) (transpose : Const) (value : List Scalar)
  | glUniformMatrix4fv (location : Int) (count : Int) (transpose : Const) (value : List Scalar)
  -- texture component (`rendering/Texture.h`, outside the sources)
  | Texture_load (path : String)
  | set_active_texture (unit : Nat)
  | Texture_bind_texture (id : Nat)
  -- UI overlay
  | imgui (function : String)
  | ImGui_ImplOpenGL3_Init (version : String)
  | ImGui_Text_FPS (fps : Option Int)

/-! ## Renderer.cpp: the frame driver -/

/-- The data members of `Renderer` that `Renderer.cpp` reads and writes. -/
structure Renderer where
  major : Int
  minor : Int
  width : Int
  height : Int
  window : Window
  currentTime : Scalar
  previousTime : Scalar
  deltaTime : Scalar
  deriving DecidableEq

/-- The compile-time settings of `Config.h`, a header outside the sources, taken as
parameters. -/
structure Config where
  WINDOW_NAME : String
  ENABLE_FULLSCREEN : Bool
  ENABLE_FIXED_ASPECT_RATIO : Bool
  ASPECT_RATIO_X : Int
  ASPECT_RATIO_Y : Int
  APPLE : Bool

/-- `Renderer::Renderer(major_, minor_, width_, height_)` on zero-initialised storage. -/
def Renderer.new (major_ minor_ width_ height_ : Int) : Renderer :=
  { major := major_, minor := minor_, width := width_, height := height_,
    window := none, currentTime := 0, previousTime := 0, deltaTime := 0 }

/-- `Renderer::initialise_glfw`. -/
def Renderer.initialise_glfw (r : Renderer) (cfg : Config) : List Call :=
  [Call.glfwInit,
   Call.glfwWindowHint Const.GLFW_CONTEXT_VERSION_MAJOR (Sum.inr r.major),
   Call.glfwWindowHint Const.GLFW_CONTEXT_VERSION_MINOR (Sum.inr r.minor),
   Call.glfwWindowHint Const.GLFW_OPENGL_PROFILE (Sum.inl Const.GLFW_OPENGL_CORE_PROFILE)]
  ++ (if cfg.APPLE then
        [Call.glfwWindowHint Const.GLFW_OPENGL_FORWARD_COMPAT (Sum.inl Const.GL_TRUE)]
      else [])

/-- `Renderer::terminate_glfw`. -/
def Renderer.terminate_glfw (_r : Renderer) : List Call :=
  [Call.glfwTerminate]

/-- `Renderer::create_window`; `created` is the handle `glfwCreateWindow` returns. With
`ENABLE_FULLSCREEN` the window is requested on the primary monitor. -/
def Renderer.create_window (r : Renderer) (cfg : Config) (created : Window) :
    Bool × Renderer × List Call :=
  let r := { r with window := created }
  let t :=
    if cfg.ENABLE_FULLSCREEN then
      [Call.glfwGetPrimaryMonitor, Call.glfwCreateWindow r.width r.height cfg.WINDOW_NAME true]
    else
      [Call.glfwCreateWindow r.width r.height cfg.WINDOW_NAME false]
  if r.window = none then
    (false, r, t ++ [Call.print "Failed to create GLFW window\n"] ++ r.terminate_glfw)
  else
    (true, r, t)

/-- `Renderer::setup_window_data`; `gladLoaded` is what `gladLoadGLLoader` returns. -/
def Renderer.setup_window_data (r : Renderer) (cfg : Config) (gladLoaded : Bool) : List Call :=
  [Call.glfwMakeContextCurrent r.window,
   Call.glfwSetFramebufferSizeCallback r.window Callback.framebuffer_size_callback,
   Call.glfwSetCursorPosCallback r.window Callback.mouse_callback,
   Call.glfwSetScrollCallback r.window Callback.scroll_callback]
  ++ (if !cfg.ENABLE_FULLSCREEN && cfg.ENABLE_FIXED_ASPECT_RATIO then
        [Call.glfwSetWindowAspectRatio r.window cfg.ASPECT_RATIO_X cfg.ASPECT_RATIO_Y]
      else [])
  ++ [Call.gladLoadGLLoader]
  ++ (if !gladLoaded then [Call.print "Failed to initialize GLAD\n"] else [])
  ++ [Call.glEnable Const.GL_DEPTH_TEST]

/-- `Renderer::close_window`; `flag` is what `glfwWindowShouldClose` returns. -/
def Renderer.close_window (r : Renderer) (flag : Bool) : Bool × List Call :=
  (flag, [Call.glfwWindowShouldClose r.window])

/-- `Renderer::swap_buffers`. -/
def Renderer.swap_buffers (r : Renderer) (lockFrameRate : Bool) : List Call :=
  [Call.glfwSwapBuffers r.window, Call.glfwPollEvents]
  ++ (if !lockFrameRate then [Call.glfwSwapInterval 0] else [Call.glfwSwapInterval 1])

/-- `Renderer::check_key`; `pressed` tells whether `glfwGetKey` returns `GLFW_PRESS`. -/
def Renderer.check_key (r : Renderer) (key : Const) (pressed : Bool) : Bool × List Call :=
  (pressed, [Call.glfwGetKey r.window key])

/-- `Renderer::start_timer`; `now` is the `double` that `glfwGetTime()` returns. It is
converted to the type of `currentTime`; `0.0f` converts to 0 in every type. -/
def Renderer.start_timer (A : Arith) (r : Renderer) (now : Scalar) : Renderer × List Call :=
  let r := { r with currentTime := A.toTime now }
  let r := { r with previousTime := r.currentTime }
  let r := { r with deltaTime := 0 }
  (r, [Call.glfwGetTime])

/-- `Renderer::new_frame`; `now` is the `double` that `glfwGetTime()` returns. The
difference of the two time members is computed in their type and converted to the type of
`deltaTime`. -/
def Renderer.new_frame (A : Arith) (r : Renderer) (now : Scalar) : Renderer × List Call :=
  let r := { r with currentTime := A.toTime now }
  let r := { r with deltaTime := A.toDelta (A.toTime (r.currentTime - r.previousTime)) }
  let r := { r with previousTime := r.currentTime }
  (r, [Call.glfwGetTime])

/-- The renderer after `start_timer` has read `t 0` and the `k`-th of `n` successive
`new_frame` calls has read `t k`. -/
def Renderer.afterTicks (A : Arith) (r : Renderer) (t : ℕ → Scalar) : ℕ → Renderer
  | 0 => (r.start_timer A (t 0)).1
  | n + 1 => ((Renderer.afterTicks A r t n).new_frame A (t (n + 1))).1

/-! ## Renderer.cpp: the camera/input record and its callbacks -/

/-- A `glm::vec3`. -/
structure Vec3 where
  x : Scalar
  y : Scalar
  z : Scalar
  deriving DecidableEq

/-- A method call received by a `Camera`. -/
inductive CameraCall
  | process_mouse (xOffset yOffset deltaTime : Scalar)
  | process_scroll (yoffset : Scalar)
  deriving DecidableEq

/-- Modelled from the spec: the `Camera` class, whose header and implementation are outside
the sources: a free-look camera driven by pointer deltas and scroll input. It is kept as the
position it was constructed from and the method calls it has received, oldest first. -/
structure Camera where
  position : Vec3
  received : List CameraCall
  deriving DecidableEq

/-- The record `RenderCamera`, of which `Renderer.cpp` holds the file-scope instance `rCam`. -/
structure RenderCamera where
  cam : Camera
  lastX : Scalar
  lastY : Scalar
  isFirstMouse : Bool
  xOffset : Scalar
  yOffset : Scalar
  deriving DecidableEq

/-- `Renderer::set_camera`; `width / 2.0f` is a `float` division of the converted `int`. -/
def Renderer.set_camera (A : Arith) (r : Renderer) (rCam : RenderCamera) (cam : Camera) :
    RenderCamera :=
  let rCam := { rCam with cam := { position := cam.position, received := [] } }
  let rCam := { rCam with lastX := A.toPointer (A.toFloat (A.toFloat (r.width : Scalar) / 2)) }
  let rCam := { rCam with lastY := A.toPointer (A.toFloat (A.toFloat (r.height : Scalar) / 2)) }
  let rCam := { rCam with isFirstMouse := true }
  let rCam := { rCam with xOffset := 0 }
  { rCam with yOffset := 0 }

/-- `Renderer::set_cursor`. -/
def Renderer.set_cursor (r : Renderer) (status : Bool) : List Call :=
  if status then
    [Call.glfwSetInputMode r.window Const.GLFW_CURSOR Const.GLFW_CURSOR_NORMAL]
  else
    [Call.glfwSetInputMode r.window Const.GLFW_CURSOR Const.GLFW_CURSOR_DISABLED]

/-- `Renderer::process_mouse`, acting on the file-scope record `rCam`. -/
def Renderer.process_mouse (r : Renderer) (rCam : RenderCamera) (isActive : Bool) :
    RenderCamera × List Call :=
  let (rCam, t) :=
    if isActive then
      ({ rCam with cam := { rCam.cam with received := rCam.cam.received ++
          [CameraCall.process_mouse rCam.xOffset rCam.yOffset r.deltaTime] } },
       r.set_cursor false)
    else
      (rCam, r.set_cursor true)
  let rCam := { rCam with xOffset := 0 }
  let rCam := { rCam with yOffset := 0 }
  (rCam, t)

/-- `framebuffer_size_callback`. -/
def framebuffer_size_callback (width height : Int) : List Call :=
  [Call.glViewport 0 0 width height]

/-- `mouse_callback`, acting on the file-scope record `rCam`. `xpos` and `ypos` are
`double`: each difference is computed in `double` and converted to the type of the member
it is stored in, and so is each position. -/
def mouse_callback (A : Arith) (rCam : RenderCamera) (xpos ypos : Scalar) : RenderCamera :=
  let rCam := { rCam with xOffset := A.toPointer (A.toDouble (xpos - rCam.lastX)) }
  let rCam := { rCam with yOffset := A.toPointer (A.toDouble (ypos - rCam.lastY)) }
  let rCam := { rCam with lastX := A.toPointer xpos }
  { rCam with lastY := A.toPointer ypos }

/-- `scroll_callback`, acting on the file-scope record `rCam`. -/
def scroll_callback (rCam : RenderCamera) (_xoffset yoffset : Scalar) : RenderCamera :=
  { rCam with cam := { rCam.cam with received := rCam.cam.received ++
      [CameraCall.process_scroll yoffset] } }

/-- The pointer delta handed to the camera by its most recent call. -/
def Camera.lastConsumed (c : Camera) : Option (Scalar × Scalar) :=
  match c.received.getLast? with
  | some (CameraCall.process_mouse x y _) => some (x, y)
  | _ => none

/-! ## Renderer.cpp: the vertex array wrapper -/

/-- The three handles of a `VertexArray`. -/
structure VertexArray where
  VAO : Nat
  VBO : Nat
  EBO : Nat
  deriving DecidableEq

/-- `VertexArray::generate_buffers`; `vao`, `vbo`, `ebo` are the names the backend hands
out. -/
def VertexArray.generate_buffers (_v : VertexArray) (vao vbo ebo : Nat) :
    VertexArray × List Call :=
  ({ VAO := vao, VBO := vbo, EBO := ebo },
   [Call.glGenVertexArrays 1, Call.glGenBuffers 1, Call.glGenBuffers 1])

/-- `VertexArray::bind_vao`. -/
def VertexArray.bind_vao (v : VertexArray) : List Call :=
  [Call.glBindVertexArray v.VAO]

/-- `VertexArray::unbind_vao`. -/
def VertexArray.unbind_vao (_v : VertexArray) : List Call :=
  [Call.glBindVertexArray 0]

/-- `VertexArray::bind_vbo`; the pointed-to vertex data is not recorded. -/
def VertexArray.bind_vbo (v : VertexArray) (vertexCount stride : Int) : List Call :=
  [Call.glBindBuffer Const.GL_ARRAY_BUFFER v.VBO,
   Call.glBufferData Const.GL_ARRAY_BUFFER (vertexCount * stride) Const.GL_STATIC_DRAW]

/-- `VertexArray::unbind_vbo`. -/
def VertexArray.unbind_vbo (_v : VertexArray) : List Call :=
  [Call.glBindBuffer Const.GL_ARRAY_BUFFER 0]

/-- `VertexArray::bind_ebo`; `sizeof(unsigned int)` is 4, the pointed-to index data is not
recorded. -/
def VertexArray.bind_ebo (v : VertexArray) (indexCount : Int) : List Call :=
  [Call.glBindBuffer Const.GL_ELEMENT_ARRAY_BUFFER v.EBO,
   Call.glBufferData Const.GL_ELEMENT_ARRAY_BUFFER (indexCount * 4) Const.GL_STATIC_DRAW]

/-- `VertexArray::unbind_ebo`. -/
def VertexArray.unbind_ebo (_v : VertexArray) : List Call :=
  [Call.glBindBuffer Const.GL_ELEMENT_ARRAY_BUFFER 0]

/-- `VertexArray::set_attribute_array`; `pointer` is the byte offset passed as a pointer. -/
def VertexArray.set_attribute_array (_v : VertexArray) (layoutLayer count stride pointer : Int) :
    List Call :=
  [Call.glEnableVertexAttribArray layoutLayer,
   Call.glVertexAttribPointer layoutLayer count Const.GL_FLOAT Const.GL_FALSE stride pointer]

/-- `VertexArray::draw_triangle`. -/
def VertexArray.draw_triangle (v : VertexArray) (count startIndex : Int) : List Call :=
  v.bind_vao ++ [Call.glDrawArrays Const.GL_TRIANGLES startIndex count] ++ v.unbind_vao

/-- `VertexArray::draw_indices`. -/
def VertexArray.draw_indices (v : VertexArray) (indexCount : Int) : List Call :=
  v.bind_vao
    ++ [Call.glDrawElements Const.GL_TRIANGLES indexCount Const.GL_UNSIGNED_INT 0]
    ++ v.unbind_vao

/-- `VertexArray::free_data`. -/
def VertexArray.free_data (v : VertexArray) : List Call :=
  [Call.glDeleteVertexArrays v.VAO, Call.glDeleteBuffers v.VBO, Call.glDeleteBuffers v.EBO]

/-- Whether a call is one of the two draw commands. -/
def Call.isDraw : Call → Bool
  | Call.glDrawArrays _ _ _ => true
  | Call.glDrawElements _ _ _ _ => true
  | _ => false

/-- The vertex-array binding of the backend after it has executed the calls of a trace,
given the binding before: each `glBindVertexArray` replaces it. -/
def boundVertexArray (before : Nat) : List Call → Nat
  | [] => before
  | Call.glBindVertexArray a :: rest => boundVertexArray a rest
  | _ :: rest => boundVertexArray before rest

/-! ## Shader.cpp: shader programs -/

/-- `enum SHADER_TYPE` of `Shader.h`. -/
inductive SHADER_TYPE
  | VERTEX_SHADER | FRAGMENT_SHADER | COMBINED_SHADER
  deriving DecidableEq

/-- What the collaborators answer during one run: the file system, the function-pointer
loader and the OpenGL backend. -/
structure Env where
  /-- Whether the file at a path can be opened for reading. -/
  opens : String → Bool
  /-- The characters that `stream << file.rdbuf()` transfers from the opened file: its
  content, or what precedes a read that fails. -/
  transferred : String → String
  /-- Whether closing the opened file fails. -/
  closeFails : String → Bool
  /-- `FileSystem::get_path` (header outside the sources). -/
  get_path : String → String
  /-- The handle `glCreateShader` returns for a stage. -/
  glCreateShader : Const → Nat
  /-- The value `glGetShaderiv(shader, GL_COMPILE_STATUS, &success)` leaves in `success`. -/
  compileStatus : Nat → Int
  /-- The text `glGetShaderInfoLog` stores. -/
  shaderInfoLog : Nat → String
  /-- The handle `glCreateProgram` returns. -/
  glCreateProgram : Nat
  /-- The value `glGetProgramiv(program, GL_LINK_STATUS, &success)` leaves in `success`. -/
  linkStatus : Nat → Int
  /-- The text `glGetProgramInfoLog` stores. -/
  programInfoLog : Nat → String
  /-- The location `glGetUniformLocation` returns; -1 when the name is not an active
  uniform of the program. -/
  glGetUniformLocation : Nat → String → Int
  /-- The content of an `unsigned int` that was never written. -/
  indeterminate : Nat

/-- The data member of `Shader`: the program id. -/
structure Shader where
  id : Nat
  deriving DecidableEq

/-- `Shader::Shader()`: the id is left unwritten. -/
def Shader.new (env : Env) : Shader :=
  { id := env.indeterminate }

/-- `Shader::compile_shader`. For `COMBINED_SHADER` neither branch assigns the local
`shader`. -/
def Shader.compile_shader (env : Env) (_s : Shader) (code : String) (type : SHADER_TYPE) :
    Nat × List Call :=
  let (shader, t) :=
    if type = SHADER_TYPE.VERTEX_SHADER then
      (env.glCreateShader Const.GL_VERTEX_SHADER, [Call.glCreateShader Const.GL_VERTEX_SHADER])
    else if type = SHADER_TYPE.FRAGMENT_SHADER then
      (env.glCreateShader Const.GL_FRAGMENT_SHADER,
       [Call.glCreateShader Const.GL_FRAGMENT_SHADER])
    else
      (env.indeterminate, [])
  (shader, t ++ [Call.glShaderSource shader code, Call.glCompileShader shader])

/-- `Shader::check_compile_errors`: returns whether the queried status is 0. -/
def Shader.check_compile_errors (env : Env) (_s : Shader) (shader : Nat) (type : SHADER_TYPE) :
    Bool × List Call :=
  if type = SHADER_TYPE.COMBINED_SHADER then
    let success := env.linkStatus shader
    let t := [Call.glGetProgramiv shader Const.GL_LINK_STATUS]
    let t := if success = 0 then
        t ++ [Call.glGetProgramInfoLog shader,
              Call.print ("ERROR::SHADER::PROGRAM::LINKING FAILED OF TYPE\n"
                ++ env.programInfoLog shader ++ "\n")]
      else t
    (success == 0, t)
  else
    let success := env.compileStatus shader
    let t := [Call.glGetShaderiv shader Const.GL_COMPILE_STATUS]
    let t := if success = 0 then
        t ++ [Call.glGetShaderInfoLog shader,
              Call.print ("ERROR::SHADER::COMPILE::LINKING FAILED OF TYPE\n"
                ++ env.shaderInfoLog shader ++ "\n")]
      else t
    (success == 0, t)

/-- The `try`/`catch` block of `Shader::create_shader`. Failures raise only on the two
file streams: an `open` or a `close` that fails throws, the handler prints the error, and
both code strings stay empty because they are assigned last. The transfer into the string
streams does not throw: a read that fails after a successful `open` is silent and leaves
the characters transferred so far. -/
def Shader.read_sources (env : Env) (vertexPath fragmentPath : String) :
    String × String × List Call :=
  if !env.opens vertexPath then
    ("", "", [Call.print "Error Shader File Not loaded successfully\n"])
  else if !env.opens fragmentPath then
    ("", "", [Call.print "Error Shader File Not loaded successfully\n"])
  else if env.closeFails vertexPath then
    ("", "", [Call.print "Error Shader File Not loaded successfully\n"])
  else if env.closeFails fragmentPath then
    ("", "", [Call.print "Error Shader File Not loaded successfully\n"])
  else
    (env.transferred vertexPath, env.transferred fragmentPath, [])

/-- `Shader::create_shader`. -/
def Shader.create_shader (env : Env) (s : Shader) (vertexPath fragmentPath : String) :
    Shader × List Call :=
  let (vertexCode, fragmentCode, t0) := Shader.read_sources env vertexPath fragmentPath
  let (vertex, t1) := s.compile_shader env vertexCode SHADER_TYPE.VERTEX_SHADER
  let (failed1, t2) := s.check_compile_errors env vertex SHADER_TYPE.VERTEX_SHADER
  if failed1 then
    (s, t0 ++ t1 ++ t2)
  else
    let (fragment, t3) := s.compile_shader env fragmentCode SHADER_TYPE.FRAGMENT_SHADER
    let (failed2, t4) := s.check_compile_errors env fragment SHADER_TYPE.FRAGMENT_SHADER
    if failed2 then
      (s, t0 ++ t1 ++ t2 ++ t3 ++ t4)
    else
      let s := { s with id := env.glCreateProgram }
      let t5 := [Call.glCreateProgram, Call.glAttachShader s.id vertex,
                 Call.glAttachShader s.id fragment, Call.glLinkProgram s.id]
      let (failed3, t6) := s.check_compile_errors env s.id SHADER_TYPE.COMBINED_SHADER
      if failed3 then
        (s, t0 ++ t1 ++ t2 ++ t3 ++ t4 ++ t5 ++ t6)
      else
        (s, t0 ++ t1 ++ t2 ++ t3 ++ t4 ++ t5 ++ t6
              ++ [Call.glDeleteShader vertex, Call.glDeleteShader fragment])

/-- `Shader::Shader(const char *vertexPath, const char *fragmentPath)`. -/
def Shader.fromPaths (env : Env) (vertexPath fragmentPath : String) : Shader × List Call :=
  (Shader.new env).create_shader env vertexPath fragmentPath

/-- `Shader::Shader(std::string vertexPath, std::string fragmentPath)`. -/
def Shader.fromStrings (env : Env) (vertexPath fragmentPath : String) : Shader × List Call :=
  let (s, t) := (Shader.new env).create_shader env vertexPath fragmentPath
  (s, Call.print (vertexPath ++ fragmentPath) :: t)

/-- `Shader::use`. -/
def Shader.use (s : Shader) : List Call :=
  [Call.glUseProgram s.id]

/-- `Shader::free_data`. -/
def Shader.free_data (s : Shader) : List Call :=
  [Call.glDeleteProgram s.id]

/-! ## Shader.cpp: the uniform setters -/

/-- A `glm::vec2`. -/
structure Vec2 where
  x : Scalar
  y : Scalar
  deriving DecidableEq

/-- A `glm::vec4`. -/
structure Vec4 where
  x : Scalar
  y : Scalar
  z : Scalar
  w : Scalar
  deriving DecidableEq

/-- A `glm::mat2`, `glm::mat3` or `glm::mat4`: `value c r` is `value[c][r]`. -/
abbrev Mat (n : ℕ) := Fin n → Fin n → Scalar

/-- The `n * n` floats found at `&value[0][0]`, column after column. -/
def Mat.floats {n : ℕ} (value : Mat n) : List Scalar :=
  (List.finRange n).flatMap (fun c => (List.finRange n).map (fun r => value c r))

/-- The conversion `int(value)` of a `bool`. -/
def boolToInt (value : Bool) : Int :=
  if value then 1 else 0

/-- The conversion of an `unsigned int` to `int` (32 bits, two's complement). -/
def unsignedToInt (n : Nat) : Int :=
  if n % 2 ^ 32 < 2 ^ 31 then (n % 2 ^ 32 : Nat) else ((n % 2 ^ 32 : Nat) : Int) - 2 ^ 32

/-- `Shader::set_bool`. -/
def Shader.set_bool (env : Env) (s : Shader) (name : String) (value : Bool) : List Call :=
  [Call.glGetUniformLocation s.id name,
   Call.glUniform1i (env.glGetUniformLocation s.id name) (boolToInt value)]

/-- `Shader::set_int`. -/
def Shader.set_int (env : Env) (s : Shader) (name : String) (value : Int) : List Call :=
  [Call.glGetUniformLocation s.id name,
   Call.glUniform1i (env.glGetUniformLocation s.id name) value]

/-- `Shader::set_float`. -/
def Shader.set_float (env : Env) (s : Shader) (name : String) (value : Scalar) : List Call :=
  [Call.glGetUniformLocation s.id name,
   Call.glUniform1f (env.glGetUniformLocation s.id name) value]

/-- `Shader::set_vec2(name, x, y)`. -/
def Shader.set_vec2 (env : Env) (s : Shader) (name : String) (x y : Scalar) : List Call :=
  [Call.glGetUniformLocation s.id name,
   Call.glUniform2f (env.glGetUniformLocation s.id name) x y]

/-- `Shader::set_vec2(name, glm::vec2)`. -/
def Shader.set_vec2v (env : Env) (s : Shader) (name : String) (value : Vec2) : List Call :=
  [Call.glGetUniformLocation s.id name,
   Call.glUniform2f (env.glGetUniformLocation s.id name) value.x value.y]

/-- `Shader::set_vec3(name, x, y, z)`. -/
def Shader.set_vec3 (env : Env) (s : Shader) (name : String) (x y z : Scalar) : List Call :=
  [Call.glGetUniformLocation s.id name,
   Call.glUniform3f (env.glGetUniformLocation s.id name) x y z]

/-- `Shader::set_vec3(name, glm::vec3)`. -/
def Shader.set_vec3v (env : Env) (s : Shader) (name : String) (value : Vec3) : List Call :=
  [Call.glGetUniformLocation s.id name,
   Call.glUniform3f (env.glGetUniformLocation s.id name) value.x value.y value.z]

/-- `Shader::set_vec4(name, x, y, z, w)`. -/
def Shader.set_vec4 (env : Env) (s : Shader) (name : String) (x y z w : Scalar) : List Call :=
  [Call.glGetUniformLocation s.id name,
   Call.glUniform4f (env.glGetUniformLocation s.id name) x y z w]

/-- `Shader::set_vec4(name, glm::vec4)`. -/
def Shader.set_vec4v (env : Env) (s : Shader) (name : String) (value : Vec4) : List Call :=
  [Call.glGetUniformLocation s.id name,
   Call.glUniform4f (env.glGetUniformLocation s.id name) value.x value.y value.z value.w]

/-- `Shader::set_mat2`. -/
def Shader.set_mat2 (env : Env) (s : Shader) (name : String) (value : Mat 2) : List Call :=
  [Call.glGetUniformLocation s.id name,
   Call.glUniformMatrix2fv (env.glGetUniformLocation s.id name) 1 Const.GL_FALSE value.floats]

/-- `Shader::set_mat3`. -/
def Shader.set_mat3 (env : Env) (s : Shader) (name : String) (value : Mat 3) : List Call :=
  [Call.glGetUniformLocation s.id name,
   Call.glUniformMatrix3fv (env.glGetUniformLocation s.id name) 1 Const.GL_FALSE value.floats]

/-- `Shader::set_mat4`. -/
def Shader.set_mat4 (env : Env) (s : Shader) (name : String) (value : Mat 4) : List Call :=
  [Call.glGetUniformLocation s.id name,
   Call.glUniformMatrix4fv (env.glGetUniformLocation s.id name) 1 Const.GL_FALSE value.floats]

/-- The data member of `Texture` that `Shader.cpp` reads (`rendering/Texture.h` is outside
the sources). -/
structure Texture where
  id : Nat
  deriving DecidableEq

/-- `Shader::set_texture`. -/
def Shader.set_texture (env : Env) (s : Shader) (name : String) (tex : Texture) : List Call :=
  [Call.set_active_texture tex.id]
    ++ s.set_int env name (unsignedToInt tex.id)
    ++ [Call.Texture_bind_texture tex.id]

/-- `Shader::set_matrices`. -/
def Shader.set_matrices (env : Env) (s : Shader) (model view projection : Mat 4) : List Call :=
  s.set_mat4 env "model" model ++ s.set_mat4 env "view" view
    ++ s.set_mat4 env "projection" projection

/-- `Shader::set_material`. -/
def Shader.set_material (env : Env) (s : Shader) (ambient diffuse specular : Vec3)
    (shininess : Scalar) : List Call :=
  s.set_vec3v env "mat.ambient" ambient ++ s.set_vec3v env "mat.diffuse" diffuse
    ++ s.set_vec3v env "mat.specular" specular ++ s.set_float env "mat.shininess" shininess

/-- Whether a call writes a uniform: one of `glUniform1i`, `glUniform1f`, `glUniform2f`,
`glUniform3f`, `glUniform4f`, `glUniformMatrix2fv`, `glUniformMatrix3fv`,
`glUniformMatrix4fv`. -/
def Call.isUniformWrite : Call → Bool
  | Call.glUniform1i _ _ => true
  | Call.glUniform1f _ _ => true
  | Call.glUniform2f _ _ _ => true
  | Call.glUniform3f _ _ _ _ => true
  | Call.glUniform4f _ _ _ _ _ => true
  | Call.glUniformMatrix2fv _ _ _ _ => true
  | Call.glUniformMatrix3fv _ _ _ _ => true
  | Call.glUniformMatrix4fv _ _ _ _ => true
  | _ => false

/-- The location argument of a uniform write. -/
def Call.uniformLocation : Call → Option Int
  | Call.glUniform1i l _ => some l
  | Call.glUniform1f l _ => some l
  | Call.glUniform2f l _ _ => some l
  | Call.glUniform3f l _ _ _ => some l
  | Call.glUniform4f l _ _ _ _ => some l
  | Call.glUniformMatrix2fv l _ _ _ => some l
  | Call.glUniformMatrix3fv l _ _ _ => some l
  | Call.glUniformMatrix4fv l _ _ _ => some l
  | _ => none

/-- Whether a call asks the backend to compile a stage, create a program or link one. -/
def Call.isBuild : Call → Bool
  | Call.glCreateShader _ => true
  | Call.glShaderSource _ _ => true
  | Call.glCompileShader _ => true
  | Call.glCreateProgram => true
  | Call.glAttachShader _ _ => true
  | Call.glLinkProgram _ => true
  | _ => false

/-! ## ShaderToy.cpp: the entry point -/

/-- What the window layer and the UI overlay answer during one iteration of the render
loop. -/
structure FrameInput where
  /-- The reading of `glfwGetTime()` in `new_frame`. -/
  now : Scalar
  /-- Whether the escape key reads as pressed. -/
  escapePressed : Bool
  /-- The size `glfwGetWindowSize` stores. -/
  windowWidth : Int
  windowHeight : Int
  /-- The three colour components after `ImGui::ColorEdit3`. -/
  pickedColor : Vec3
  /-- The value of `drawOption` after `ImGui::Combo`. -/
  pickedDrawOption : Int
  /-- The value of `lockFrameRate` after its `ImGui::Checkbox`. -/
  pickedLockFrameRate : Bool
  /-- The value of `showFrameRate` after its `ImGui::Checkbox`. -/
  pickedShowFrameRate : Bool

/-- What the collaborators answer during one run of `main`, besides `Env`. -/
structure Session where
  /-- The handle `glfwCreateWindow` returns. -/
  created : Window
  /-- The result of `gladLoadGLLoader`. -/
  gladLoaded : Bool
  /-- The names handed out to `generate_buffers`. -/
  vao : Nat
  vbo : Nat
  ebo : Nat
  /-- The id of the texture that the `Texture` constructor produces. -/
  textureId : Nat
  /-- The reading of `glfwGetTime()` in `start_timer`. -/
  startTime : Scalar
  /-- One entry per iteration of the render loop in which `close_window()` is false; once
  they are used up the window reports that it should close. -/
  frames : List FrameInput

/-- The local variables of `main` that live across iterations of the render loop, and the
global `renderer`. -/
structure LoopState where
  renderer : Renderer
  totalTime : Scalar
  bkgColor : Vec4
  drawOption : Int
  showFrameRate : Bool
  lockFrameRate : Bool

/-- The update of the `float` local `totalTime` at the start of a frame: the sum is
computed in the type of `deltaTime` and converted to `float`, the difference is computed
in `float`. -/
def advanceTotalTime (A : Arith) (totalTime deltaTime : Scalar) : Scalar :=
  let totalTime := A.toFloat (A.toDelta (totalTime + deltaTime))
  if totalTime > 300 then A.toFloat (totalTime - 300) else totalTime

/-- The conversion `(int)(1 / deltaTime)`: truncation toward zero, undefined (`none`) when
the quotient is not a value of `int`. -/
def framesPerSecond (A : Arith) (deltaTime : Scalar) : Option Int :=
  if deltaTime = 0 then none
  else
    let q : Scalar := A.toDelta (1 / deltaTime)
    let n : Int := Int.tdiv q.num q.den
    if -(2 ^ 31) ≤ n ∧ n < 2 ^ 31 then some n else none

/-- One iteration of the body of the render loop of `main`. -/
def frame (A : Arith) (env : Env) (shdr : Shader) (tex : Texture) (varray : VertexArray)
    (st : LoopState) (f : FrameInput) : LoopState × List Call :=
  -- Frame Start
  let (renderer, t1) := st.renderer.new_frame A f.now
  let totalTime := advanceTotalTime A st.totalTime renderer.deltaTime
  -- New UI Frame
  let t2 := [Call.imgui "ImGui_ImplOpenGL3_NewFrame", Call.imgui "ImGui_ImplGlfw_NewFrame",
             Call.imgui "ImGui::NewFrame"]
  -- Check for Inputs
  let (escape, t3) := renderer.check_key Const.GLFW_KEY_ESCAPE f.escapePressed
  let t4 := if escape then [Call.glfwSetWindowShouldClose renderer.window true] else []
  -- Setup Background Color
  let t5 := [Call.glClearColor st.bkgColor.x st.bkgColor.y st.bkgColor.z st.bkgColor.w,
             Call.glClear Const.GL_COLOR_BUFFER_BIT_or_GL_DEPTH_BUFFER_BIT]
  -- Set Draw Mode
  let t6 :=
    if st.drawOption = 0 then [Call.glPolygonMode Const.GL_FRONT_AND_BACK Const.GL_POINT]
    else if st.drawOption = 1 then [Call.glPolygonMode Const.GL_FRONT_AND_BACK Const.GL_LINE]
    else [Call.glPolygonMode Const.GL_FRONT_AND_BACK Const.GL_FILL]
  -- Do Calculations
  let t7 := [Call.glfwGetWindowSize renderer.window]
  let (currentWidth, currentHeight) : Int × Int :=
    if f.windowHeight = 0 ∨ f.windowWidth = 0 then (1, 1) else (f.windowWidth, f.windowHeight)
  -- Setup Shader Uniforms
  let t8 := shdr.use
    ++ shdr.set_float env "iTime" totalTime
    ++ shdr.set_float env "iTimeDelta" (A.toFloat renderer.deltaTime)
    ++ shdr.set_vec2 env "iResolution" (A.toFloat currentWidth) (A.toFloat currentHeight)
    ++ shdr.set_texture env "iChannel0" tex
  -- Drawing Shapes and Objects
  let t9 := shdr.use ++ [Call.set_active_texture 0] ++ varray.draw_indices 6
  -- Setup UI Windows
  let bkgColor : Vec4 :=
    { x := f.pickedColor.x, y := f.pickedColor.y, z := f.pickedColor.z, w := st.bkgColor.w }
  let drawOption := f.pickedDrawOption
  let lockFrameRate := f.pickedLockFrameRate
  let showFrameRate := f.pickedShowFrameRate
  let t10 := [Call.imgui "ImGui::Begin", Call.imgui "ImGui::ColorEdit3",
              Call.imgui "ImGui::Combo", Call.imgui "ImGui::Checkbox",
              Call.imgui "ImGui::Checkbox"]
    ++ (if showFrameRate then [Call.ImGui_Text_FPS (framesPerSecond A renderer.deltaTime)]
        else [])
    ++ [Call.imgui "ImGui::End"]
  -- Draw UI
  let t11 := [Call.imgui "ImGui::Render", Call.imgui "ImGui::GetDrawData",
              Call.imgui "ImGui_ImplOpenGL3_RenderDrawData"]
  -- End of Frame
  let t12 := renderer.swap_buffers lockFrameRate
  ({ renderer := renderer, totalTime := totalTime, bkgColor := bkgColor,
     drawOption := drawOption, showFrameRate := showFrameRate,
     lockFrameRate := lockFrameRate },
   t1 ++ t2 ++ t3 ++ t4 ++ t5 ++ t6 ++ t7 ++ t8 ++ t9 ++ t10 ++ t11 ++ t12)

/-- The render loop of `main`: `while (!renderer.close_window())`. The window reports that
it should close once the frame inputs are used up, or after the iteration in which the
escape key made the loop call `glfwSetWindowShouldClose(window, true)`. -/
def renderLoop (A : Arith) (env : Env) (shdr : Shader) (tex : Texture)
    (varray : VertexArray) : LoopState → List FrameInput → LoopState × List Call
  | st, [] => (st, (st.renderer.close_window true).2)
  | st, f :: rest =>
    let t0 := (st.renderer.close_window false).2
    let (st1, t1) := frame A env shdr tex varray st f
    if f.escapePressed then
      (st1, t0 ++ t1 ++ (st1.renderer.close_window true).2)
    else
      let (st2, t2) := renderLoop A env shdr tex varray st1 rest
      (st2, t0 ++ t1 ++ t2)

/-- The function `main` of `ShaderToy.cpp`: its return value and the calls it issues.
`renderer` is the global object as constructed before `main` runs. -/
def main (A : Arith) (cfg : Config) (env : Env) (session : Session) (renderer : Renderer) :
    Int × List Call :=
  let t1 := renderer.initialise_glfw cfg
  let (ok, renderer, t2) := renderer.create_window cfg session.created
  if !ok then
    (-1, t1 ++ t2)
  else
    let t3 := renderer.setup_window_data cfg session.gladLoaded
    -- Setting up imgui
    let versionText := "#version " ++ toString renderer.major ++ toString renderer.minor ++ "0"
    let t4 := [Call.imgui "IMGUI_CHECKVERSION", Call.imgui "ImGui::CreateContext",
               Call.imgui "ImGui_ImplGlfw_InitForOpenGL", Call.ImGui_ImplOpenGL3_Init versionText,
               Call.imgui "ImGui::GetIO", Call.imgui "ImGui::StyleColorsDark"]
    -- Setup Vertex Array
    let (varray, t5) := VertexArray.generate_buffers ⟨0, 0, 0⟩ session.vao session.vbo session.ebo
    let t6 := varray.bind_vao
      ++ varray.bind_vbo 4 (5 * 4)
      ++ varray.bind_ebo 6
      ++ varray.set_attribute_array 0 3 (5 * 4) 0  -- last argument defaulted in the header
      ++ varray.set_attribute_array 1 2 (5 * 4) (3 * 4)
      ++ varray.unbind_vbo
      ++ varray.unbind_vao
    -- Setup Shaders and Textures
    let (shdr, t7) := Shader.fromPaths env (env.get_path "shaders/2dshaders/shaderToy.vs")
      (env.get_path "shaders/2dshaders/shaderToy.fs")
    let tex : Texture := { id := session.textureId }
    let t8 := [Call.Texture_load (env.get_path "resources/textures/iitk_logo.png")]
    -- Setup Data
    let st : LoopState :=
      { renderer := renderer, totalTime := 0,
        bkgColor := ⟨A.toFloat (1 / 5), A.toFloat (3 / 10), A.toFloat (1 / 5), 1⟩,
        drawOption := 2, showFrameRate := false, lockFrameRate := false }
    -- Start Render Loop
    let (renderer, t9) := st.renderer.start_timer A session.startTime
    let (st, t10) :=
      renderLoop A env shdr tex varray { st with renderer := renderer } session.frames
    -- Free Date and stop processes
    let t11 := [Call.imgui "ImGui_ImplOpenGL3_Shutdown", Call.imgui "ImGui_ImplGlfw_Shutdown",
                Call.imgui "ImGui::DestroyContext"]
      ++ shdr.free_data ++ varray.free_data ++ st.renderer.terminate_glfw
    (0, t1 ++ t2 ++ t3 ++ t4 ++ t5 ++ t6 ++ t7 ++ t8 ++ t9 ++ t10 ++ t11)

/-! ## The set family and sample collaborators -/

/-- The setters of the `set` family, each with the arguments of a call. -/
inductive Setter
  | set_bool (value : Bool)
  | set_int (value : Int)
  | set_float (value : Scalar)
  | set_vec2 (x y : Scalar)
  | set_vec2v (value : Vec2)
  | set_vec3 (x y z : Scalar)
  | set_vec3v (value : Vec3)
  | set_vec4 (x y z w : Scalar)
  | set_vec4v (value : Vec4)
  | set_mat2 (value : Mat 2)
  | set_mat3 (value : Mat 3)
  | set_mat4 (value : Mat 4)

/-- The calls issued by a setter of the `set` family for the uniform `name`. -/
def Shader.set (env : Env) (s : Shader) (name : String) : Setter → List Call
  | Setter.set_bool value => s.set_bool env name value
  | Setter.set_int value => s.set_int env name value
  | Setter.set_float value => s.set_float env name value
  | Setter.set_vec2 x y => s.set_vec2 env name x y
  | Setter.set_vec2v value => s.set_vec2v env name value
  | Setter.set_vec3 x y z => s.set_vec3 env name x y z
  | Setter.set_vec3v value => s.set_vec3v env name value
  | Setter.set_vec4 x y z w => s.set_vec4 env name x y z w
  | Setter.set_vec4v value => s.set_vec4v env name value
  | Setter.set_mat2 value => s.set_mat2 env name value
  | Setter.set_mat3 value => s.set_mat3 env name value
  | Setter.set_mat4 value => s.set_mat4 env name value

/-- A sample run: both files open exactly when `readable` and then deliver `code`, the
stages get the handles 1 and 2 and the program the handle 3, the three status queries
answer as given, and every uniform lookup answers `location`. -/
def sampleEnv (readable : Bool) (code : String) (vertexStatus fragmentStatus linkStatus : Int)
    (location : Int) : Env :=
  { opens := fun _ => readable
    transferred := fun _ => code
    closeFails := fun _ => false
    get_path := fun p => p
    glCreateShader := fun stage => if stage = Const.GL_VERTEX_SHADER then 1 else 2
    compileStatus := fun shader => if shader = 1 then vertexStatus else fragmentStatus
    shaderInfoLog := fun _ => "error"
    glCreateProgram := 3
    linkStatus := fun _ => linkStatus
    programInfoLog := fun _ => "error"
    glGetUniformLocation := fun _ _ => location
    indeterminate := 42 }

/-- A sample run of `main` with no frame. -/
def sampleSession (created : Window) : Session :=
  { created := created, gladLoaded := true, vao := 1, vbo := 2, ebo := 3, textureId := 1,
    startTime := 0, frames := [] }

/-- A sample configuration. -/
def sampleConfig : Config :=
  { WINDOW_NAME := "ShaderToy", ENABLE_FULLSCREEN := false, ENABLE_FIXED_ASPECT_RATIO := true,
    ASPECT_RATIO_X := 16, ASPECT_RATIO_Y := 9, APPLE := false }

/-- Whether a call is one that `initialise_glfw` or a failing `create_window` issues:
`glfwInit`, a window hint, the monitor query, the window creation request, the report of
its failure, or `glfwTerminate`. -/
def Call.isStartup : Call → Bool
  | Call.glfwInit => true
  | Call.glfwGetPrimaryMonitor => true
  | Call.glfwWindowHint _ _ => true
  | Call.glfwCreateWindow _ _ _ _ => true
  | Call.print text => text == "Failed to create GLFW window\n"
  | Call.glfwTerminate => true
  | _ => false

/-! ## Shader.cpp: the material value object -/

/-- `struct MaterialField` of `Shader.h`. -/
structure MaterialField where
  color : Vec3
  tex : Texture
  deriving DecidableEq

/-- `enum SHADER_TEMPLATE` of `Shader.h`. -/
inductive SHADER_TEMPLATE
  | COLOR_SHADER_3D | TEXTURE_SHADER_3D
  deriving DecidableEq

/-- What the constructors of `Material` take from outside the sources: the constant
`DEFAULT_SHADER_COLOR` of `Config.h`, the value of a default-constructed `Texture`
(`rendering/Texture.h`), and the content of the member `shader`, which no constructor
writes. -/
structure MaterialDefaults where
  DEFAULT_SHADER_COLOR : Vec3
  defaultTexture : Texture
  unwrittenShader : SHADER_TEMPLATE

/-- `MaterialField::MaterialField(color_)`: the colour is stored, the texture is
default-constructed. -/
def MaterialField.new (d : MaterialDefaults) (color_ : Vec3) : MaterialField :=
  { color := color_, tex := d.defaultTexture }

/-- `class Material` of `Shader.h`. -/
structure Material where
  ambient : MaterialField
  diffuse : MaterialField
  specular : MaterialField
  shininess : Scalar
  shader : SHADER_TEMPLATE
  deriving DecidableEq

/-- `Material::Material()`: the three fields get the default colour, `shininess = 64.0f`. -/
def Material.new (d : MaterialDefaults) : Material :=
  { ambient := MaterialField.new d d.DEFAULT_SHADER_COLOR
    diffuse := MaterialField.new d d.DEFAULT_SHADER_COLOR
    specular := MaterialField.new d d.DEFAULT_SHADER_COLOR
    shininess := 64
    shader := d.unwrittenShader }

/-- `Material::Material(ambient_, diffuse_, specular_, shininess_)`: the three fields are
assigned `MaterialField(ambient_)`, `MaterialField(diffuse_)`, `MaterialField(specular_)`
and `shininess` is assigned `shininess_`. -/
def Material.ofColors (d : MaterialDefaults) (ambient_ diffuse_ specular_ : Vec3)
    (shininess_ : Scalar) : Material :=
  { ambient := MaterialField.new d ambient_
    diffuse := MaterialField.new d diffuse_
    specular := MaterialField.new d specular_
    shininess := shininess_
    shader := d.unwrittenShader }

/-- `Material(ambient_, diffuse_, specular_)` with the last argument left to its default in
`Shader.h`, `shininess_ = 64.0f`. -/
def Material.ofColorsDefaultShininess (d : MaterialDefaults)
    (ambient_ diffuse_ specular_ : Vec3) : Material :=
  Material.ofColors d ambient_ diffuse_ specular_ 64

/-- Sample values for what the `Material` constructors take from outside the sources. -/
def sampleMaterialDefaults : MaterialDefaults :=
  { DEFAULT_SHADER_COLOR := ⟨1, 1, 1⟩, defaultTexture := ⟨0⟩,
    unwrittenShader := SHADER_TEMPLATE.COLOR_SHADER_3D }

/-! ## Observers of the shader clock -/

/-- Whether a call is not a float uniform write carrying a value above `hi`. -/
def Call.floatAtMost (hi : Scalar) : Call → Bool
  | Call.glUniform1f _ v => decide (v ≤ hi)
  | _ => true

/-- Whether no frame delta of a run of the render loop exceeds `bound`: the delta of a
frame is its clock reading minus the reading before it, the first of which is
`previousTime`. -/
def frameDeltasAtMost (bound : Scalar) (previousTime : Scalar) : List FrameInput → Bool
  | [] => true
  | f :: rest =>
    decide (f.now - previousTime ≤ bound) && frameDeltasAtMost bound f.now rest

/-- A sample frame: the clock reads `now`, the window is 800 by 600, the UI leaves the
defaults. -/
def sampleFrame (now : Scalar) : FrameInput :=
  { now := now, escapePressed := false, windowWidth := 800, windowHeight := 600,
    pickedColor := ⟨1 / 5, 3 / 10, 1 / 5⟩, pickedDrawOption := 2,
    pickedLockFrameRate := false, pickedShowFrameRate := false }

/-- The `double` nearest to 0.1, a sample clock reading. -/
def readingTenth : Scalar :=
  3602879701896397 / 2 ^ 55

/-- The `double` nearest to 1.1, a sample clock reading. -/
def readingElevenTenths : Scalar :=
  4953959590107546 / 2 ^ 52

/-! # Theorems -/

/-! ## Floating-point rounding -/

theorem roundHalfEven_intCast (n : ℤ) : roundHalfEven (n : Scalar) = n := by
  unfold roundHalfEven
  simp

theorem floor_le_roundHalfEven (y : Scalar) : ⌊y⌋ ≤ roundHalfEven y := by
  unfold roundHalfEven
  split_ifs <;> omega

theorem roundHalfEven_le_floor_add_one (y : Scalar) : roundHalfEven y ≤ ⌊y⌋ + 1 := by
  unfold roundHalfEven
  split_ifs <;> omega

theorem roundHalfEven_mono {a b : Scalar} (h : a ≤ b) : roundHalfEven a ≤ roundHalfEven b := by
  have hf : ⌊a⌋ ≤ ⌊b⌋ := Int.floor_mono h
  rcases lt_or_eq_of_le hf with hlt | heq
  · calc roundHalfEven a ≤ ⌊a⌋ + 1 := roundHalfEven_le_floor_add_one a
      _ ≤ ⌊b⌋ := hlt
      _ ≤ roundHalfEven b := floor_le_roundHalfEven b
  · unfold roundHalfEven
    rw [heq]
    split_ifs <;> first | omega | (exfalso; linarith) 

theorem roundHalfEven_eq_of_abs_sub_lt {y : Scalar} {n : ℤ} (h : |y - n| < 1 / 2) :
    roundHalfEven y = n := by
  rw [abs_lt] at h
  obtain ⟨h1, h2⟩ := h
  by_cases hc : (n : Scalar) ≤ y
  · have hfl : ⌊y⌋ = n := by
      rw [Int.floor_eq_iff]
      constructor
      · exact hc
      · linarith
    unfold roundHalfEven
    rw [hfl]
    rw [if_pos (by linarith)]
  · push_neg at hc
    have hfl : ⌊y⌋ = n - 1 := by
      rw [Int.floor_eq_iff]
      push_cast
      constructor
      · linarith
      · linarith
    unfold roundHalfEven
    rw [hfl]
    push_cast
    rw [if_neg (by linarith), if_pos (by linarith)]
    ring

theorem Format.ulp_pos (F : Format) (x : Scalar) : 0 < F.ulp x := by
  unfold Format.ulp
  positivity

theorem Format.round_zero (F : Format) : F.round 0 = 0 := by
  unfold Format.round
  simp [roundHalfEven]

theorem Format.round_nonneg (F : Format) {x : Scalar} (h : 0 ≤ x) : 0 ≤ F.round x := by
  unfold Format.round
  have hu := F.ulp_pos x
  have h1 : (0 : Scalar) ≤ x / F.ulp x := div_nonneg h hu.le
  have h2 : (0 : ℤ) ≤ roundHalfEven (x / F.ulp x) := by
    have := roundHalfEven_mono h1
    rwa [show ((0 : Scalar)) = ((0 : ℤ) : Scalar) by norm_num, roundHalfEven_intCast] at this
  have h3 : (0 : Scalar) ≤ (roundHalfEven (x / F.ulp x) : Scalar) := by exact_mod_cast h2
  exact mul_nonneg h3 hu.le

theorem Format.round_nonpos (F : Format) {x : Scalar} (h : x ≤ 0) : F.round x ≤ 0 := by
  unfold Format.round
  have hu := F.ulp_pos x
  have h1 : x / F.ulp x ≤ (0 : Scalar) := div_nonpos_of_nonpos_of_nonneg h hu.le
  have h2 : roundHalfEven (x / F.ulp x) ≤ (0 : ℤ) := by
    have := roundHalfEven_mono h1
    rwa [show ((0 : Scalar)) = ((0 : ℤ) : Scalar) by norm_num, roundHalfEven_intCast] at this
  have h3 : (roundHalfEven (x / F.ulp x) : Scalar) ≤ 0 := by exact_mod_cast h2
  exact mul_nonpos_of_nonpos_of_nonneg h3 hu.le

theorem roundHalfEven_neg (y : Scalar) : roundHalfEven (-y) = -roundHalfEven y := by
  by_cases hint : (⌊y⌋ : Scalar) = y
  · rw [← hint, ← Int.cast_neg, roundHalfEven_intCast, roundHalfEven_intCast]
  · have h1 : (⌊y⌋ : Scalar) < y := lt_of_le_of_ne (Int.floor_le y) hint
    have h2 : y < ⌊y⌋ + 1 := Int.lt_floor_add_one y
    have hfl : ⌊-y⌋ = -⌊y⌋ - 1 := by
      rw [Int.floor_eq_iff]
      push_cast
      constructor <;> linarith
    unfold roundHalfEven
    rw [hfl]
    push_cast
    split_ifs <;> first | omega | (exfalso; linarith)

theorem Format.exponent_neg (F : Format) (x : Scalar) : F.exponent (-x) = F.exponent x := by
  unfold Format.exponent
  rw [abs_neg]

theorem Format.ulp_neg (F : Format) (x : Scalar) : F.ulp (-x) = F.ulp x := by
  unfold Format.ulp
  rw [F.exponent_neg]

theorem Format.round_neg (F : Format) (x : Scalar) : F.round (-x) = -F.round x := by
  unfold Format.round
  rw [F.ulp_neg, neg_div, roundHalfEven_neg]
  push_cast
  ring

theorem Format.round_mono_pos (F : Format) {x y : Scalar} (hx : 0 < x) (hxy : x ≤ y) :
    F.round x ≤ F.round y := by
  have hy : 0 < y := lt_of_lt_of_le hx hxy
  have hlog : Int.log 2 x ≤ Int.log 2 y := Int.log_mono_right hx hxy
  have hex : F.exponent x = max (Int.log 2 x) F.emin := by
    unfold Format.exponent; rw [abs_of_pos hx]
  have hey : F.exponent y = max (Int.log 2 y) F.emin := by
    unfold Format.exponent; rw [abs_of_pos hy]
  have hle : F.exponent x ≤ F.exponent y := by
    rw [hex, hey]; exact max_le_max hlog le_rfl
  have hux := F.ulp_pos x
  have huy := F.ulp_pos y
  rcases eq_or_lt_of_le hle with heq | hlt
  · have hu : F.ulp x = F.ulp y := by unfold Format.ulp; rw [heq]
    unfold Format.round
    rw [hu]
    have h1 : x / F.ulp y ≤ y / F.ulp y := div_le_div_of_nonneg_right hxy huy.le
    have h2 : (roundHalfEven (x / F.ulp y) : Scalar) ≤ roundHalfEven (y / F.ulp y) := by
      exact_mod_cast roundHalfEven_mono h1
    exact mul_le_mul_of_nonneg_right h2 huy.le
  · have two1 : (1 : Scalar) ≤ 2 := by norm_num
    have two0 : (0 : Scalar) < 2 := by norm_num
    have two_ne : (2 : Scalar) ≠ 0 := by norm_num
    -- upper bound for the rounded x
    have hA : F.round x ≤ (2 : Scalar) ^ (F.exponent x + 1) := by
      have hx1 : x < (2 : Scalar) ^ (Int.log 2 x + 1) := by
        exact_mod_cast Int.lt_zpow_succ_log_self (R := Scalar) (b := 2) (by norm_num) x
      have hx2 : (2 : Scalar) ^ (Int.log 2 x + 1) ≤ (2 : Scalar) ^ (F.exponent x + 1) := by
        apply zpow_le_zpow_right₀ two1
        rw [hex]; have := le_max_left (Int.log 2 x) F.emin; omega
      have hx3 : x ≤ (2 : Scalar) ^ (F.exponent x + 1) := le_of_lt (lt_of_lt_of_le hx1 hx2)
      have hq : x / F.ulp x ≤ (((2 : ℤ) ^ (F.fractionBits + 1) : ℤ) : Scalar) := by
        rw [div_le_iff₀ hux]
        unfold Format.ulp
        push_cast
        rw [← zpow_natCast, ← zpow_add₀ two_ne]
        convert hx3 using 2
        push_cast
        ring
      have hr := roundHalfEven_mono hq
      rw [roundHalfEven_intCast] at hr
      have hr2 : (roundHalfEven (x / F.ulp x) : Scalar) ≤ (((2 : ℤ) ^ (F.fractionBits + 1) : ℤ) : Scalar) := by
        exact_mod_cast hr
      unfold Format.round
      calc (roundHalfEven (x / F.ulp x) : Scalar) * F.ulp x
          ≤ (((2 : ℤ) ^ (F.fractionBits + 1) : ℤ) : Scalar) * F.ulp x :=
            mul_le_mul_of_nonneg_right hr2 hux.le
        _ = (2 : Scalar) ^ (F.exponent x + 1) := by
            unfold Format.ulp
            push_cast
            rw [← zpow_natCast, ← zpow_add₀ two_ne]
            congr 1
            push_cast
            ring
    -- lower bound for the rounded y
    have heylog : F.exponent y = Int.log 2 y := by
      rw [hey]
      apply max_eq_left
      by_contra hc
      push_neg at hc
      have h1 : F.exponent y = F.emin := by rw [hey]; exact max_eq_right hc.le
      have h2 : F.emin ≤ F.exponent x := by rw [hex]; exact le_max_right _ _
      omega
    have hB : (2 : Scalar) ^ F.exponent y ≤ F.round y := by
      have hy1 : (2 : Scalar) ^ F.exponent y ≤ y := by
        rw [heylog]
        exact_mod_cast Int.zpow_log_le_self (R := Scalar) (b := 2) (by norm_num) hy
      have hq : (((2 : ℤ) ^ F.fractionBits : ℤ) : Scalar) ≤ y / F.ulp y := by
        rw [le_div_iff₀ huy]
        unfold Format.ulp
        push_cast
        rw [← zpow_natCast, ← zpow_add₀ two_ne]
        convert hy1 using 2
        ring
      have hr := roundHalfEven_mono hq
      rw [roundHalfEven_intCast] at hr
      have hr2 : (((2 : ℤ) ^ F.fractionBits : ℤ) : Scalar) ≤ (roundHalfEven (y / F.ulp y) : Scalar) := by
        exact_mod_cast hr
      unfold Format.round
      calc (2 : Scalar) ^ F.exponent y
          = (((2 : ℤ) ^ F.fractionBits : ℤ) : Scalar) * F.ulp y := by
            unfold Format.ulp
            push_cast
            rw [← zpow_natCast, ← zpow_add₀ two_ne]
            congr 1
            ring
        _ ≤ (roundHalfEven (y / F.ulp y) : Scalar) * F.ulp y :=
            mul_le_mul_of_nonneg_right hr2 huy.le
    have hC : (2 : Scalar) ^ (F.exponent x + 1) ≤ (2 : Scalar) ^ F.exponent y :=
      zpow_le_zpow_right₀ two1 (by omega)
    exact le_trans hA (le_trans hC hB)

theorem Format.round_mono (F : Format) : Monotone F.round := by
  intro x y hxy
  rcases lt_trichotomy x 0 with hxn | hx0 | hxp
  · rcases le_or_lt 0 y with hy | hy
    · exact le_trans (F.round_nonpos hxn.le) (F.round_nonneg hy)
    · have h := F.round_mono_pos (x := -y) (y := -x) (by linarith) (by linarith)
      rw [F.round_neg, F.round_neg] at h
      linarith
  · subst hx0
    rw [F.round_zero]
    exact F.round_nonneg hxy
  · exact F.round_mono_pos hxp hxy

theorem log_two_eq {x : Scalar} {e : ℤ} (hx : 0 < x) (h1 : (2 : Scalar) ^ e ≤ x)
    (h2 : x < (2 : Scalar) ^ (e + 1)) : Int.log 2 x = e := by
  have hb : 1 < 2 := by norm_num
  have ha : e ≤ Int.log 2 x := (Int.zpow_le_iff_le_log hb hx).mp (by exact_mod_cast h1)
  have hc : Int.log 2 x < e + 1 := (Int.lt_zpow_iff_log_lt hb hx).mp (by exact_mod_cast h2)
  omega

theorem Format.round_eq_of_near (F : Format) {x : Scalar} {e n : ℤ} (hx : 0 < x)
    (h1 : (2 : Scalar) ^ e ≤ x) (h2 : x < (2 : Scalar) ^ (e + 1)) (he : F.emin ≤ e)
    (hn : |x / (2 : Scalar) ^ (e - (F.fractionBits : ℤ)) - n| < 1 / 2) :
    F.round x = n * (2 : Scalar) ^ (e - (F.fractionBits : ℤ)) := by
  have hexp : F.exponent x = e := by
    unfold Format.exponent
    rw [abs_of_pos hx, log_two_eq hx h1 h2]
    exact max_eq_left he
  unfold Format.round Format.ulp
  rw [hexp, roundHalfEven_eq_of_abs_sub_lt hn]

theorem Format.round_representable (F : Format) (m k : ℤ)
    (hk : F.emin - (F.fractionBits : ℤ) ≤ k) (hm : |m| < 2 ^ (F.fractionBits + 1)) :
    F.round (m * (2 : Scalar) ^ k) = m * (2 : Scalar) ^ k := by
  have two_ne : (2 : Scalar) ≠ 0 := by norm_num
  have two1 : (1 : Scalar) ≤ 2 := by norm_num
  by_cases hm0 : m = 0
  · subst hm0
    simp [F.round_zero]
  · have hpow : (0 : Scalar) < (2 : Scalar) ^ k := by positivity
    have hxpos : 0 < |(m : Scalar) * (2 : Scalar) ^ k| := by
      apply abs_pos.mpr
      exact mul_ne_zero (by exact_mod_cast hm0) hpow.ne'
    have hj : F.exponent (m * (2 : Scalar) ^ k) - (F.fractionBits : ℤ) ≤ k := by
      unfold Format.exponent
      have hlog : Int.log 2 |(m : Scalar) * (2 : Scalar) ^ k| < k + (F.fractionBits : ℤ) + 1 := by
        apply (Int.lt_zpow_iff_log_lt (by norm_num) hxpos).mp
        rw [abs_mul, abs_of_pos hpow]
        have hmq : |(m : Scalar)| < (2 : Scalar) ^ (F.fractionBits + 1) := by
          have : ((|m| : ℤ) : Scalar) < (((2 : ℤ) ^ (F.fractionBits + 1) : ℤ) : Scalar) := by
            exact_mod_cast hm
          simpa using this
        have e1 : ((2 : ℕ) : Scalar) ^ (k + (F.fractionBits : ℤ) + 1)
            = (2 : Scalar) ^ (F.fractionBits + 1) * (2 : Scalar) ^ k := by
          push_cast
          rw [← zpow_natCast, ← zpow_add₀ two_ne]
          congr 1
          push_cast
          ring
        rw [e1]
        exact mul_lt_mul_of_pos_right hmq hpow
      rcases max_cases (Int.log 2 |(m : Scalar) * (2 : Scalar) ^ k|) F.emin with h | h <;>
        rw [h.1] <;> omega
    obtain ⟨d, hd⟩ : ∃ d : ℕ, k = F.exponent (m * (2 : Scalar) ^ k) - (F.fractionBits : ℤ) + d :=
      ⟨(k - (F.exponent (m * (2 : Scalar) ^ k) - (F.fractionBits : ℤ))).toNat, by omega⟩
    have hu : F.ulp (m * (2 : Scalar) ^ k) * (2 : Scalar) ^ d = (2 : Scalar) ^ k := by
      unfold Format.ulp
      rw [← zpow_natCast, ← zpow_add₀ two_ne, ← hd]
    have hupos := F.ulp_pos (m * (2 : Scalar) ^ k)
    have key : ∀ u : Scalar, 0 < u → u * (2 : Scalar) ^ d = (2 : Scalar) ^ k →
        (roundHalfEven ((m : Scalar) * (2 : Scalar) ^ k / u) : Scalar) * u
          = (m : Scalar) * (2 : Scalar) ^ k := by
      intro u hu0 hu2
      have hq : (m : Scalar) * (2 : Scalar) ^ k / u = ((m * 2 ^ d : ℤ) : Scalar) := by
        rw [div_eq_iff hu0.ne', ← hu2]
        push_cast
        ring
      rw [hq, roundHalfEven_intCast, ← hu2]
      push_cast
      ring
    exact key _ hupos hu

theorem Format.round_intCast (F : Format) (m : ℤ) (h0 : F.emin ≤ (F.fractionBits : ℤ))
    (hm : |m| < 2 ^ (F.fractionBits + 1)) : F.round (m : Scalar) = m := by
  have := F.round_representable m 0 (by omega) hm
  simpa using this

theorem Format.standard_round_int {F : Format} (hF : F ∈ Format.standard) (m : ℤ)
    (hm : |m| < 2 ^ 24) : F.round (m : Scalar) = m := by
  simp only [Format.standard, List.mem_cons, List.mem_singleton, List.not_mem_nil,
    or_false] at hF
  rcases hF with rfl | rfl
  · exact Format.binary32.round_intCast m (by decide) hm
  · exact Format.binary64.round_intCast m (by decide)
      (lt_of_lt_of_le hm (by norm_num [Format.binary64]))

theorem Format.standard_round_zero {F : Format} (hF : F ∈ Format.standard) :
    F.round 0 = 0 := by
  have := Format.standard_round_int hF 0 (by norm_num)
  simpa using this

theorem Format.standard_round_one {F : Format} (hF : F ∈ Format.standard) :
    F.round 1 = 1 := by
  have := Format.standard_round_int hF 1 (by norm_num)
  simpa using this

theorem Format.standard_round_two {F : Format} (hF : F ∈ Format.standard) :
    F.round 2 = 2 := by
  have := Format.standard_round_int hF 2 (by norm_num)
  simpa using this

theorem Format.standard_round_three {F : Format} (hF : F ∈ Format.standard) :
    F.round 3 = 3 := by
  have := Format.standard_round_int hF 3 (by norm_num)
  simpa using this

theorem Format.standard_sample_delta {F : Format} (hF : F ∈ Format.standard) :
    F.round (F.round readingElevenTenths - F.round readingTenth) = 1 := by
  simp only [Format.standard, List.mem_cons, List.mem_singleton, List.not_mem_nil,
    or_false] at hF
  rcases hF with rfl | rfl
  · have r0 : Format.binary32.round readingTenth = 13421773 / 2 ^ 27 := by
      have := Format.binary32.round_eq_of_near (x := readingTenth) (e := -4) (n := 13421773)
        (by norm_num [readingTenth]) (by norm_num [readingTenth])
        (by norm_num [readingTenth]) (by decide)
        (by norm_num [Format.binary32, readingTenth, abs_lt])
      rw [this]
      norm_num [Format.binary32]
    have r1 : Format.binary32.round readingElevenTenths = 9227469 / 2 ^ 23 := by
      have := Format.binary32.round_eq_of_near (x := readingElevenTenths) (e := 0)
        (n := 9227469)
        (by norm_num [readingElevenTenths]) (by norm_num [readingElevenTenths])
        (by norm_num [readingElevenTenths]) (by decide)
        (by norm_num [Format.binary32, readingElevenTenths, abs_lt])
      rw [this]
      norm_num [Format.binary32]
    rw [r0, r1]
    have := Format.binary32.round_eq_of_near
      (x := 9227469 / 2 ^ 23 - 13421773 / 2 ^ 27) (e := 0) (n := 2 ^ 23)
      (by norm_num) (by norm_num) (by norm_num) (by decide)
      (by norm_num [Format.binary32, abs_lt])
    rw [this]
    norm_num [Format.binary32]
  · have r0 : Format.binary64.round readingTenth = readingTenth := by
      have := Format.binary64.round_representable 3602879701896397 (-55) (by decide)
        (by norm_num [Format.binary64])
      norm_num [readingTenth] at this ⊢
      exact this
    have r1 : Format.binary64.round readingElevenTenths = readingElevenTenths := by
      have := Format.binary64.round_representable 4953959590107546 (-52) (by decide)
        (by norm_num [Format.binary64])
      norm_num [readingElevenTenths] at this ⊢
      exact this
    rw [r0, r1]
    have := Format.binary64.round_eq_of_near
      (x := readingElevenTenths - readingTenth) (e := 0) (n := 2 ^ 52)
      (by norm_num [readingElevenTenths, readingTenth])
      (by norm_num [readingElevenTenths, readingTenth])
      (by norm_num [readingElevenTenths, readingTenth]) (by decide)
      (by norm_num [Format.binary64, readingElevenTenths, readingTenth, abs_lt])
    rw [this]
    norm_num [Format.binary64]

/-- A tie goes to the even neighbour: 2^24 + 1 is halfway between two `float` values and
rounds to 2^24. -/
theorem Format.binary32_round_tie : Format.binary32.round 16777217 = 16777216 := by
  have hlog : Int.log 2 |(16777217 : Scalar)| = 24 := by
    rw [abs_of_pos (by norm_num)]
    exact log_two_eq (by norm_num) (by norm_num) (by norm_num)
  have hulp : Format.binary32.ulp 16777217 = 2 := by
    unfold Format.ulp Format.exponent
    rw [hlog]
    norm_num [Format.binary32]
  have hfloor : ⌊(16777217 : Scalar) / 2⌋ = 8388608 := by
    rw [Int.floor_eq_iff]
    constructor <;> norm_num
  unfold Format.round
  rw [hulp]
  unfold roundHalfEven
  rw [hfloor]
  norm_num

/-! ## Frame timing -/

theorem afterTicks_previousTime (A : Arith) (r : Renderer) (t : ℕ → Scalar) (n : ℕ) :
    (r.afterTicks A t n).previousTime = A.toTime (t n) := by
  cases n <;> rfl

theorem afterTicks_deltaTime (A : Arith) (r : Renderer) (t : ℕ → Scalar) (n : ℕ) :
    (r.afterTicks A t (n + 1)).deltaTime
      = A.toDelta (A.toTime (A.toTime (t (n + 1)) - A.toTime (t n))) := by
  show A.toDelta (A.toTime (A.toTime (t (n + 1)) - (r.afterTicks A t n).previousTime)) = _
  rw [afterTicks_previousTime]

/-- C1 as stated fails: whichever of `float` and `double` the members are, with the clock
readings 0 (at `start_timer`) and 1 (at the first `new_frame`) the first tick leaves
`deltaTime = 1`; so for no choice of the member types does the first tick leave a delta of
0 for every sequence of clock readings. -/
theorem first_tick_delta_not_always_zero :
    ¬ ∃ T ∈ Format.standard, ∃ D ∈ Format.standard, ∃ P ∈ Format.standard,
        ∀ (r : Renderer) (t0 t1 : Scalar),
          ((r.start_timer (Arith.ieee T D P) t0).1.new_frame (Arith.ieee T D P) t1).1.deltaTime
            = 0 := by
  rintro ⟨T, hT, D, hD, P, -, h⟩
  have h1 := h (Renderer.new 3 3 800 600) 0 1
  simp [Renderer.start_timer, Renderer.new_frame, Renderer.new, Arith.ieee,
    Format.standard_round_zero hT, Format.standard_round_one hT,
    Format.standard_round_one hD] at h1

/-- C1, amended: `start_timer` leaves `deltaTime = 0` and `previousTime` equal to the
reading `t0` as stored in the member; the first `new_frame`, reading `t1`, leaves in
`deltaTime` the rounded difference of the two stored readings. With roundings that map 0 to
0 (as those of IEEE 754 do) that delta is 0 whenever the two stored readings are equal; it
is not 0 in general. -/
theorem first_tick_delta (A : Arith) (r : Renderer) (t0 t1 : Scalar)
    (hT0 : A.toTime 0 = 0) (hD0 : A.toDelta 0 = 0) :
    (r.start_timer A t0).1.deltaTime = 0 ∧
    (r.start_timer A t0).1.previousTime = A.toTime t0 ∧
    ((r.start_timer A t0).1.new_frame A t1).1.deltaTime
      = A.toDelta (A.toTime (A.toTime t1 - A.toTime t0)) ∧
    (A.toTime t1 = A.toTime t0 →
      ((r.start_timer A t0).1.new_frame A t1).1.deltaTime = 0) := by
  refine ⟨rfl, rfl, rfl, fun h => ?_⟩
  show A.toDelta (A.toTime (A.toTime t1 - A.toTime t0)) = 0
  rw [h, sub_self, hT0, hD0]

/-- Witness of the amended C1: `float` members, both readings 5. -/
theorem first_tick_delta_witness :
    (Arith.ieee Format.binary32 Format.binary32 Format.binary32).toTime 0 = 0 ∧
    (((Renderer.new 3 3 800 600).start_timer
        (Arith.ieee Format.binary32 Format.binary32 Format.binary32) 5).1.new_frame
        (Arith.ieee Format.binary32 Format.binary32 Format.binary32) 5).1.deltaTime = 0 :=
  ⟨Format.round_zero _,
   (first_tick_delta (Arith.ieee Format.binary32 Format.binary32 Format.binary32)
      (Renderer.new 3 3 800 600) 5 5 (Format.round_zero _) (Format.round_zero _)).2.2.2 rfl⟩

/-- C5 as stated fails: whichever of `float` and `double` the members are, with the
non-decreasing readings 0.1 (at `start_timer`) and 1.1 (at every `new_frame`), as `double`
values, the first `new_frame` leaves `deltaTime = 1`, which is not the difference of the
two readings; so for no choice of the member types does every tick leave the exact
difference of the readings. -/
theorem new_frame_delta_not_exact :
    ¬ ∃ T ∈ Format.standard, ∃ D ∈ Format.standard, ∃ P ∈ Format.standard,
        ∀ (r : Renderer) (t : ℕ → Scalar), Monotone t → ∀ n : ℕ,
          (r.afterTicks (Arith.ieee T D P) t (n + 1)).deltaTime = t (n + 1) - t n ∧
          (r.afterTicks (Arith.ieee T D P) t (n + 1)).previousTime = t (n + 1) ∧
          0 ≤ (r.afterTicks (Arith.ieee T D P) t (n + 1)).deltaTime ∧
          ∑ k in Finset.range (n + 1), (r.afterTicks (Arith.ieee T D P) t (k + 1)).deltaTime
            = t (n + 1) - t 0 := by
  rintro ⟨T, hT, D, hD, P, -, h⟩
  have hmono : Monotone (fun k : ℕ => if k = 0 then readingTenth else readingElevenTenths) := by
    intro a b hab
    by_cases ha : a = 0
    · by_cases hb : b = 0
      · simp [ha, hb]
      · simp only [ha, hb, if_true, if_false]; norm_num [readingTenth, readingElevenTenths]
    · have hb : b ≠ 0 := by omega
      simp [ha, hb]
  have h1 := (h (Renderer.new 3 3 800 600) _ hmono 0).1
  rw [afterTicks_deltaTime] at h1
  simp only [Arith.ieee, zero_add, one_ne_zero, if_true, if_false] at h1
  rw [Format.standard_sample_delta hT, Format.standard_round_one hD] at h1
  norm_num [readingTenth, readingElevenTenths] at h1

/-- C5, amended: for non-decreasing clock readings `t 0, t 1, ...` and roundings that are
monotone and map 0 to 0 (as those of IEEE 754 are), the `(n+1)`-th `new_frame` sets
`previousTime` to the stored reading `t (n+1)` and `deltaTime` to the rounded difference of
the stored readings `t (n+1)` and `t n`, and that delta is non-negative. When no rounding
occurs, that is when every reading and every difference of successive readings is a value
of the member types, `deltaTime = t (n+1) - t n`, `previousTime = t (n+1)` and the deltas of
the first `n+1` ticks sum to `t (n+1) - t 0`. -/
theorem new_frame_delta_rounded (A : Arith) (r : Renderer) (t : ℕ → Scalar)
    (hT : Monotone A.toTime) (hT0 : A.toTime 0 = 0)
    (hD : Monotone A.toDelta) (hD0 : A.toDelta 0 = 0) (ht : Monotone t) (n : ℕ) :
    (r.afterTicks A t (n + 1)).deltaTime
      = A.toDelta (A.toTime (A.toTime (t (n + 1)) - A.toTime (t n))) ∧
    (r.afterTicks A t (n + 1)).previousTime = A.toTime (t (n + 1)) ∧
    0 ≤ (r.afterTicks A t (n + 1)).deltaTime ∧
    ((∀ k, k ≤ n + 1 → A.toTime (t k) = t k) →
     (∀ k, k ≤ n → A.toDelta (A.toTime (t (k + 1) - t k)) = t (k + 1) - t k) →
      (r.afterTicks A t (n + 1)).deltaTime = t (n + 1) - t n ∧
      (r.afterTicks A t (n + 1)).previousTime = t (n + 1) ∧
      ∑ k in Finset.range (n + 1), (r.afterTicks A t (k + 1)).deltaTime
        = t (n + 1) - t 0) := by
  refine ⟨afterTicks_deltaTime A r t n, afterTicks_previousTime A r t (n + 1), ?_, ?_⟩
  · rw [afterTicks_deltaTime]
    have h1 : A.toTime (t n) ≤ A.toTime (t (n + 1)) := hT (ht (Nat.le_succ n))
    have h2 : 0 ≤ A.toTime (A.toTime (t (n + 1)) - A.toTime (t n)) := by
      rw [← hT0]
      exact hT (sub_nonneg.mpr h1)
    rw [← hD0]
    exact hD h2
  · intro hrep hdiff
    have hdelta : ∀ k, k ≤ n → (r.afterTicks A t (k + 1)).deltaTime = t (k + 1) - t k := by
      intro k hk
      rw [afterTicks_deltaTime, hrep (k + 1) (by omega), hrep k (by omega), hdiff k hk]
    refine ⟨hdelta n le_rfl, ?_, ?_⟩
    · rw [afterTicks_previousTime, hrep (n + 1) le_rfl]
    · rw [Finset.sum_congr rfl (fun k hk => hdelta k (by
        have := Finset.mem_range.mp hk
        omega))]
      exact Finset.sum_range_sub t (n + 1)

/-- Witness of the amended C5: `float` members, the clock reads `k` at the `k`-th tick;
third tick. -/
theorem new_frame_delta_rounded_witness :
    Monotone (Arith.ieee Format.binary32 Format.binary32 Format.binary32).toTime ∧
    Monotone (fun k : ℕ => (k : Scalar)) ∧
    0 ≤ ((Renderer.new 3 3 800 600).afterTicks
          (Arith.ieee Format.binary32 Format.binary32 Format.binary32)
          (fun k : ℕ => (k : Scalar)) 3).deltaTime ∧
    ((Renderer.new 3 3 800 600).afterTicks
          (Arith.ieee Format.binary32 Format.binary32 Format.binary32)
          (fun k : ℕ => (k : Scalar)) 3).deltaTime = 1 := by
  have hm : Monotone (fun k : ℕ => (k : Scalar)) := fun a b h => by simpa using h
  have hstd : Format.binary32 ∈ Format.standard := by simp [Format.standard]
  have h := new_frame_delta_rounded
    (Arith.ieee Format.binary32 Format.binary32 Format.binary32) (Renderer.new 3 3 800 600)
    (fun k : ℕ => (k : Scalar)) (Format.round_mono _) (Format.round_zero _)
    (Format.round_mono _) (Format.round_zero _) hm 2
  refine ⟨Format.round_mono _, hm, h.2.2.1, ?_⟩
  have hexact := h.2.2.2
    (fun k hk => by
      have := Format.standard_round_int hstd (k : ℤ) (by
        rw [abs_of_nonneg (by positivity)]
        have : (k : ℤ) ≤ 3 := by exact_mod_cast hk
        omega)
      simpa [Arith.ieee] using this)
    (fun k _ => by
      have e : ((k + 1 : ℕ) : Scalar) - (k : Scalar) = 1 := by push_cast; ring
      simp only [Arith.ieee, e, Format.standard_round_one hstd])
  rw [hexact.1]
  norm_num

/-! ## Pointer deltas -/

/-- C2 as stated fails: whichever of `float` and `double` the members are, from a record
with zero deltas and last position (0, 0), the events (1, 1) and (3, 4) have deltas (1, 1)
and (2, 3); the following `process_mouse(true)` hands the camera (2, 3), not the sum
(3, 4). -/
theorem pointer_delta_not_accumulated :
    ¬ ∃ T ∈ Format.standard, ∃ D ∈ Format.standard, ∃ P ∈ Format.standard,
        ∀ (r : Renderer) (rCam : RenderCamera) (x1 y1 x2 y2 : Scalar),
          rCam.xOffset = 0 → rCam.yOffset = 0 →
          (r.process_mouse
              (mouse_callback (Arith.ieee T D P)
                (mouse_callback (Arith.ieee T D P) rCam x1 y1) x2 y2)
              true).1.cam.lastConsumed
            = some ((mouse_callback (Arith.ieee T D P) rCam x1 y1).xOffset
                      + (mouse_callback (Arith.ieee T D P)
                          (mouse_callback (Arith.ieee T D P) rCam x1 y1) x2 y2).xOffset,
                    (mouse_callback (Arith.ieee T D P) rCam x1 y1).yOffset
                      + (mouse_callback (Arith.ieee T D P)
                          (mouse_callback (Arith.ieee T D P) rCam x1 y1) x2 y2).yOffset) := by
  rintro ⟨T, -, D, -, P, hP, h⟩
  have h64 : Format.binary64 ∈ Format.standard := by simp [Format.standard]
  have h1 := h (Renderer.new 3 3 800 600)
    { cam := { position := ⟨0, 0, 0⟩, received := [] }, lastX := 0, lastY := 0,
      isFirstMouse := true, xOffset := 0, yOffset := 0 } 1 1 3 4 rfl rfl
  have e1 : (3 : Scalar) - 1 = 2 := by norm_num
  have e2 : (4 : Scalar) - 1 = 3 := by norm_num
  simp [Renderer.process_mouse, mouse_callback, Camera.lastConsumed, Arith.ieee,
    Format.standard_round_one hP, Format.standard_round_one h64, e1, e2,
    Format.standard_round_two hP, Format.standard_round_two h64,
    Format.standard_round_three hP, Format.standard_round_three h64] at h1

/-- C2, amended: after any `process_mouse` has consumed the deltas, two pointer-move events
(x1, y1) and (x2, y2) followed by `process_mouse(true)` hand the camera the delta of the
last event alone: the rounded difference between the second position and the stored first
position. Each event overwrites the stored delta. When no rounding occurs the delta handed
over is (x2 - x1, y2 - y1). -/
theorem pointer_delta_last_event (A : Arith) (r r2 : Renderer) (rCam0 : RenderCamera)
    (active : Bool) (x1 y1 x2 y2 : Scalar) :
    (r2.process_mouse
        (mouse_callback A (mouse_callback A (r.process_mouse rCam0 active).1 x1 y1) x2 y2)
        true).1.cam.lastConsumed
      = some (A.toPointer (A.toDouble (x2 - A.toPointer x1)),
              A.toPointer (A.toDouble (y2 - A.toPointer y1))) ∧
    (mouse_callback A (mouse_callback A (r.process_mouse rCam0 active).1 x1 y1) x2 y2).xOffset
      = A.toPointer (A.toDouble (x2 - A.toPointer x1)) ∧
    (mouse_callback A (mouse_callback A (r.process_mouse rCam0 active).1 x1 y1) x2 y2).yOffset
      = A.toPointer (A.toDouble (y2 - A.toPointer y1)) ∧
    (A.toPointer x1 = x1 → A.toPointer y1 = y1 →
     A.toPointer (A.toDouble (x2 - x1)) = x2 - x1 →
     A.toPointer (A.toDouble (y2 - y1)) = y2 - y1 →
      (r2.process_mouse
          (mouse_callback A (mouse_callback A (r.process_mouse rCam0 active).1 x1 y1) x2 y2)
          true).1.cam.lastConsumed
        = some (x2 - x1, y2 - y1)) := by
  have h0 : (r2.process_mouse
        (mouse_callback A (mouse_callback A (r.process_mouse rCam0 active).1 x1 y1) x2 y2)
        true).1.cam.lastConsumed
      = some (A.toPointer (A.toDouble (x2 - A.toPointer x1)),
              A.toPointer (A.toDouble (y2 - A.toPointer y1))) := by
    simp [Renderer.process_mouse, mouse_callback, Camera.lastConsumed]
  refine ⟨h0, rfl, rfl, fun hx hy hdx hdy => ?_⟩
  rw [h0, hx, hy, hdx, hdy]

/-- Witness of the amended C2: `float` members, events (1, 1) and (3, 4). -/
theorem pointer_delta_last_event_witness :
    (Arith.ieee Format.binary32 Format.binary32 Format.binary32).toPointer 1 = 1 ∧
    ((Renderer.new 3 3 800 600).process_mouse
        (mouse_callback (Arith.ieee Format.binary32 Format.binary32 Format.binary32)
          (mouse_callback (Arith.ieee Format.binary32 Format.binary32 Format.binary32)
            ((Renderer.new 3 3 800 600).process_mouse
              { cam := { position := ⟨0, 0, 0⟩, received := [] }, lastX := 0, lastY := 0,
                isFirstMouse := true, xOffset := 7, yOffset := 7 } true).1 1 1) 3 4)
        true).1.cam.lastConsumed
      = some (3 - 1, 4 - 1) := by
  have h32 : Format.binary32 ∈ Format.standard := by simp [Format.standard]
  have h64 : Format.binary64 ∈ Format.standard := by simp [Format.standard]
  have e1 : (3 : Scalar) - 1 = 2 := by norm_num
  have e2 : (4 : Scalar) - 1 = 3 := by norm_num
  have hp1 : (Arith.ieee Format.binary32 Format.binary32 Format.binary32).toPointer 1 = 1 :=
    Format.standard_round_one h32
  refine ⟨hp1, ?_⟩
  exact (pointer_delta_last_event
    (Arith.ieee Format.binary32 Format.binary32 Format.binary32)
    (Renderer.new 3 3 800 600) (Renderer.new 3 3 800 600) _ true 1 1 3 4).2.2.2 hp1 hp1
    (by
      show Format.binary32.round (Format.binary64.round (3 - 1)) = 3 - 1
      rw [e1, Format.standard_round_two h64, Format.standard_round_two h32])
    (by
      show Format.binary32.round (Format.binary64.round (4 - 1)) = 4 - 1
      rw [e2, Format.standard_round_three h64, Format.standard_round_three h32])

/-- C6: for every camera/input record and both values of the flag, after `process_mouse`
the stored deltas `xOffset` and `yOffset` are 0 and `lastX`, `lastY` are unchanged; a second
`process_mouse(true)` with no pointer event in between hands the camera the delta (0, 0), and
a second `process_mouse(false)` hands it nothing. -/
theorem process_mouse_resets_delta (r r2 : Renderer) (rCam : RenderCamera) (active : Bool) :
    (r.process_mouse rCam active).1.xOffset = 0 ∧
    (r.process_mouse rCam active).1.yOffset = 0 ∧
    (r.process_mouse rCam active).1.lastX = rCam.lastX ∧
    (r.process_mouse rCam active).1.lastY = rCam.lastY ∧
    (r2.process_mouse (r.process_mouse rCam active).1 true).1.cam.lastConsumed = some (0, 0) ∧
    (r2.process_mouse (r.process_mouse rCam active).1 false).1.cam
      = (r.process_mouse rCam active).1.cam := by
  cases active <;> simp [Renderer.process_mouse, Camera.lastConsumed]

/-! ## Indexed draw -/

/-- C7: for every `VertexArray` and every index count `N`, `draw_indices(N)` issues exactly
bind-vertex-array(VAO), one `glDrawElements` of `N` indices of type `GL_UNSIGNED_INT` as
`GL_TRIANGLES` from offset 0, bind-vertex-array(0); that draw is its only draw command, and
whatever was bound before, the vertex-array binding afterwards is 0. -/
theorem draw_indices_calls (v : VertexArray) (N : Int) :
    v.draw_indices N
      = [Call.glBindVertexArray v.VAO,
         Call.glDrawElements Const.GL_TRIANGLES N Const.GL_UNSIGNED_INT 0,
         Call.glBindVertexArray 0] ∧
    (v.draw_indices N).filter Call.isDraw
      = [Call.glDrawElements Const.GL_TRIANGLES N Const.GL_UNSIGNED_INT 0] ∧
    ∀ before : Nat, boundVertexArray before (v.draw_indices N) = 0 := by
  refine ⟨rfl, rfl, fun _ => rfl⟩

/-! ## Float uniform write -/

/-- C9: for every shader with id `p`, every name `n` and every value `v`, `set_float(n, v)`
issues exactly one location lookup of `n` against program `p` followed by exactly one float
uniform write, at the location the lookup returned and with the value `v`. -/
theorem set_float_calls (env : Env) (s : Shader) (n : String) (v : Scalar) :
    s.set_float env n v
      = [Call.glGetUniformLocation s.id n,
         Call.glUniform1f (env.glGetUniformLocation s.id n) v] ∧
    (s.set_float env n v).filter Call.isUniformWrite
      = [Call.glUniform1f (env.glGetUniformLocation s.id n) v] ∧
    s.set_float env "iTime" (3 / 2)
      = [Call.glGetUniformLocation s.id "iTime",
         Call.glUniform1f (env.glGetUniformLocation s.id "iTime") (3 / 2)] := by
  refine ⟨rfl, rfl, rfl⟩

/-! ## Shader construction -/

theorem read_sources_calls (env : Env) (vp fp : String) :
    (Shader.read_sources env vp fp).2.2 = [] ∨
    (Shader.read_sources env vp fp).2.2
      = [Call.print "Error Shader File Not loaded successfully\n"] := by
  unfold Shader.read_sources
  split_ifs <;> simp

/-- C3 as stated fails: in the run where both stages compile, the program gets the handle 3
and the link reports failure, `create_shader` on a shader whose id was 0 returns with id 3,
the handle of the program that failed to link; so the id after a failed step is not always
zero or at least different from the failed program and from the value before the call. -/
theorem failed_link_keeps_program_id :
    ¬ ∀ (env : Env) (s : Shader) (vp fp : String),
        (env.compileStatus (env.glCreateShader Const.GL_VERTEX_SHADER) = 0 ∨
         env.compileStatus (env.glCreateShader Const.GL_FRAGMENT_SHADER) = 0 ∨
         env.linkStatus env.glCreateProgram = 0) →
        (s.create_shader env vp fp).1.id = 0 ∨
        ((s.create_shader env vp fp).1.id ≠ s.id ∧
         (s.create_shader env vp fp).1.id ≠ env.glCreateProgram) := by
  intro h
  have h1 := h (sampleEnv true "src" 1 1 0 0) ⟨0⟩ "v" "f" (Or.inr (Or.inr rfl))
  simp [Shader.create_shader, Shader.read_sources, Shader.compile_shader,
    Shader.check_compile_errors, sampleEnv] at h1

/-- C3, amended: whenever a step reports failure, `check_compile_errors` returns true for
that step and `create_shader` returns right after it. If the vertex stage, or else the
fragment stage, fails to compile, the shader is left exactly as it was before the call (its
id keeps its earlier, possibly unwritten, value) and no program is created. If both stages
compile and the link fails, the id is the handle of the program that was created and failed
to link, and the two stages are not deleted. -/
theorem create_shader_on_failure (env : Env) (s : Shader) (vp fp : String) :
    (env.compileStatus (env.glCreateShader Const.GL_VERTEX_SHADER) = 0 →
      (s.check_compile_errors env (env.glCreateShader Const.GL_VERTEX_SHADER)
        SHADER_TYPE.VERTEX_SHADER).1 = true ∧
      (s.create_shader env vp fp).1 = s ∧
      Call.glCreateProgram ∉ (s.create_shader env vp fp).2 ∧
      (s.create_shader env vp fp).2.getLast?
        = some (Call.print ("ERROR::SHADER::COMPILE::LINKING FAILED OF TYPE\n"
            ++ env.shaderInfoLog (env.glCreateShader Const.GL_VERTEX_SHADER) ++ "\n"))) ∧
    (env.compileStatus (env.glCreateShader Const.GL_VERTEX_SHADER) ≠ 0 →
     env.compileStatus (env.glCreateShader Const.GL_FRAGMENT_SHADER) = 0 →
      (s.check_compile_errors env (env.glCreateShader Const.GL_FRAGMENT_SHADER)
        SHADER_TYPE.FRAGMENT_SHADER).1 = true ∧
      (s.create_shader env vp fp).1 = s ∧
      Call.glCreateProgram ∉ (s.create_shader env vp fp).2 ∧
      (s.create_shader env vp fp).2.getLast?
        = some (Call.print ("ERROR::SHADER::COMPILE::LINKING FAILED OF TYPE\n"
            ++ env.shaderInfoLog (env.glCreateShader Const.GL_FRAGMENT_SHADER) ++ "\n"))) ∧
    (env.compileStatus (env.glCreateShader Const.GL_VERTEX_SHADER) ≠ 0 →
     env.compileStatus (env.glCreateShader Const.GL_FRAGMENT_SHADER) ≠ 0 →
     env.linkStatus env.glCreateProgram = 0 →
      (s.check_compile_errors env env.glCreateProgram SHADER_TYPE.COMBINED_SHADER).1 = true ∧
      (s.create_shader env vp fp).1.id = env.glCreateProgram ∧
      Call.glCreateProgram ∈ (s.create_shader env vp fp).2 ∧
      Call.glLinkProgram env.glCreateProgram ∈ (s.create_shader env vp fp).2 ∧
      (∀ shader, Call.glDeleteShader shader ∉ (s.create_shader env vp fp).2) ∧
      (s.create_shader env vp fp).2.getLast?
        = some (Call.print ("ERROR::SHADER::PROGRAM::LINKING FAILED OF TYPE\n"
            ++ env.programInfoLog env.glCreateProgram ++ "\n"))) := by
  refine ⟨fun hv => ?_, fun hv hf => ?_, fun hv hf hl => ?_⟩
  · rcases read_sources_calls env vp fp with h | h <;>
      simp [Shader.create_shader, Shader.compile_shader, Shader.check_compile_errors, hv, h]
  · rcases read_sources_calls env vp fp with h | h <;>
      simp [Shader.create_shader, Shader.compile_shader, Shader.check_compile_errors, hv, hf, h]
  · rcases read_sources_calls env vp fp with h | h <;>
      simp [Shader.create_shader, Shader.compile_shader, Shader.check_compile_errors,
        hv, hf, hl, h]

/-- Witness of the amended C3: the three sample runs in which the vertex compile, the
fragment compile and the link fail, on a shader whose id was 7. -/
theorem create_shader_on_failure_witness :
    ((Shader.mk 7).create_shader (sampleEnv true "src" 0 1 1 0) "v" "f").1 = Shader.mk 7 ∧
    ((Shader.mk 7).create_shader (sampleEnv true "src" 1 0 1 0) "v" "f").1 = Shader.mk 7 ∧
    ((Shader.mk 7).create_shader (sampleEnv true "src" 1 1 0 0) "v" "f").1.id = 3 :=
  ⟨((create_shader_on_failure (sampleEnv true "src" 0 1 1 0) ⟨7⟩ "v" "f").1 (by decide)).2.1,
   ((create_shader_on_failure (sampleEnv true "src" 1 0 1 0) ⟨7⟩ "v" "f").2.1
      (by decide) (by decide)).2.1,
   ((create_shader_on_failure (sampleEnv true "src" 1 1 0 0) ⟨7⟩ "v" "f").2.2
      (by decide) (by decide) (by decide)).2.1⟩

/-- C4 as stated fails: in the sample run where neither file can be opened,
`create_shader` still issues `glCreateShader`, `glShaderSource` and `glCompileShader` for
the vertex stage; so it is not true that a failed read issues no compile,
program-creation or link call. -/
theorem read_failure_still_compiles :
    ¬ ∀ (env : Env) (s : Shader) (vp fp : String),
        (env.opens vp = false ∨ env.opens fp = false) →
        (∀ c ∈ (s.create_shader env vp fp).2, c.isBuild = false) ∧
        (s.create_shader env vp fp).1.id = 0 := by
  intro h
  have h1 := (h (sampleEnv false "" 0 0 0 0) ⟨0⟩ "v" "f" (Or.inl rfl)).1
    (Call.glCompileShader 1)
  simp [Shader.create_shader, Shader.read_sources, Shader.compile_shader,
    Shader.check_compile_errors, sampleEnv, Call.isBuild] at h1

theorem read_error_ne_compile_log (x : String) :
    ¬ "Error Shader File Not loaded successfully\n"
      = "ERROR::SHADER::COMPILE::LINKING FAILED OF TYPE\n" ++ x ++ "\n" := by
  intro h
  have h2 := congrArg String.data h
  simp [String.data_append] at h2

theorem read_error_ne_link_log (x : String) :
    ¬ "Error Shader File Not loaded successfully\n"
      = "ERROR::SHADER::PROGRAM::LINKING FAILED OF TYPE\n" ++ x ++ "\n" := by
  intro h
  have h2 := congrArg String.data h
  simp [String.data_append] at h2

/-- C4, amended: when the vertex or the fragment file cannot be opened (or closing one of
them fails), `create_shader` prints the error and carries on with both source texts empty:
after the print it issues the same calls, and it leaves the same id, as in a run where both
files open and deliver no character. In particular it creates a vertex stage, gives it the
empty text, compiles it and queries its compile status. A read that fails after both files
were opened is not noticed: nothing is printed and each stage is compiled from the
characters transferred from its own file. Nothing is raised to the caller. -/
theorem create_shader_on_read_failure (env : Env) (s : Shader) (vp fp : String) :
    ((env.opens vp = false ∨ env.opens fp = false ∨
        env.closeFails vp = true ∨ env.closeFails fp = true) →
      (s.create_shader env vp fp).1
        = (s.create_shader
            { env with opens := fun _ => true, transferred := fun _ => "",
                       closeFails := fun _ => false } vp fp).1 ∧
      (s.create_shader env vp fp).2
        = Call.print "Error Shader File Not loaded successfully\n"
            :: (s.create_shader
                { env with opens := fun _ => true, transferred := fun _ => "",
                           closeFails := fun _ => false } vp fp).2 ∧
      (s.create_shader env vp fp).2.take 5
        = [Call.print "Error Shader File Not loaded successfully\n",
           Call.glCreateShader Const.GL_VERTEX_SHADER,
           Call.glShaderSource (env.glCreateShader Const.GL_VERTEX_SHADER) "",
           Call.glCompileShader (env.glCreateShader Const.GL_VERTEX_SHADER),
           Call.glGetShaderiv (env.glCreateShader Const.GL_VERTEX_SHADER)
             Const.GL_COMPILE_STATUS]) ∧
    (env.opens vp = true → env.opens fp = true →
     env.closeFails vp = false → env.closeFails fp = false →
      Shader.read_sources env vp fp = (env.transferred vp, env.transferred fp, []) ∧
      Call.print "Error Shader File Not loaded successfully\n"
        ∉ (s.create_shader env vp fp).2 ∧
      (s.create_shader env vp fp).2.take 4
        = [Call.glCreateShader Const.GL_VERTEX_SHADER,
           Call.glShaderSource (env.glCreateShader Const.GL_VERTEX_SHADER)
             (env.transferred vp),
           Call.glCompileShader (env.glCreateShader Const.GL_VERTEX_SHADER),
           Call.glGetShaderiv (env.glCreateShader Const.GL_VERTEX_SHADER)
             Const.GL_COMPILE_STATUS] ∧
      ((env.compileStatus (env.glCreateShader Const.GL_VERTEX_SHADER) ≠ 0) →
        Call.glShaderSource (env.glCreateShader Const.GL_FRAGMENT_SHADER)
          (env.transferred fp) ∈ (s.create_shader env vp fp).2)) := by
  constructor
  · intro h
    have hr : Shader.read_sources env vp fp
        = ("", "", [Call.print "Error Shader File Not loaded successfully\n"]) := by
      unfold Shader.read_sources
      rcases h with h | h | h | h <;> split_ifs <;> simp_all
    have hr2 : Shader.read_sources
        { env with opens := fun _ => true, transferred := fun _ => "",
                   closeFails := fun _ => false } vp fp
        = ("", "", []) := rfl
    simp only [Shader.create_shader, hr, hr2, Shader.compile_shader,
      Shader.check_compile_errors]
    by_cases hv : env.compileStatus (env.glCreateShader Const.GL_VERTEX_SHADER) = 0
    · simp [hv]
    · by_cases hf : env.compileStatus (env.glCreateShader Const.GL_FRAGMENT_SHADER) = 0
      · simp [hv, hf]
      · by_cases hl : env.linkStatus env.glCreateProgram = 0
        · simp [hv, hf, hl]
        · simp [hv, hf, hl]
  · intro ho1 ho2 hc1 hc2
    have hr : Shader.read_sources env vp fp
        = (env.transferred vp, env.transferred fp, []) := by
      simp [Shader.read_sources, ho1, ho2, hc1, hc2]
    refine ⟨hr, ?_, ?_, ?_⟩
    · simp only [Shader.create_shader, hr, Shader.compile_shader,
        Shader.check_compile_errors]
      by_cases hv : env.compileStatus (env.glCreateShader Const.GL_VERTEX_SHADER) = 0
      · simp [hv, read_error_ne_compile_log]
      · by_cases hf : env.compileStatus (env.glCreateShader Const.GL_FRAGMENT_SHADER) = 0
        · simp [hv, hf, read_error_ne_compile_log]
        · by_cases hl : env.linkStatus env.glCreateProgram = 0
          · simp [hv, hf, hl, read_error_ne_link_log]
          · simp [hv, hf, hl]
    · simp only [Shader.create_shader, hr, Shader.compile_shader,
        Shader.check_compile_errors]
      by_cases hv : env.compileStatus (env.glCreateShader Const.GL_VERTEX_SHADER) = 0
      · simp [hv]
      · by_cases hf : env.compileStatus (env.glCreateShader Const.GL_FRAGMENT_SHADER) = 0
        · simp [hv, hf]
        · by_cases hl : env.linkStatus env.glCreateProgram = 0
          · simp [hv, hf, hl]
          · simp [hv, hf, hl]
    · intro hv
      simp only [Shader.create_shader, hr, Shader.compile_shader,
        Shader.check_compile_errors]
      by_cases hf : env.compileStatus (env.glCreateShader Const.GL_FRAGMENT_SHADER) = 0
      · simp [hv, hf]
      · by_cases hl : env.linkStatus env.glCreateProgram = 0
        · simp [hv, hf, hl]
        · simp [hv, hf, hl]

/-- Witness of the amended C4: the first calls of the sample run where neither file can be
opened, and of the sample run where both open and deliver the text "src". -/
theorem create_shader_on_read_failure_witness :
    (sampleEnv false "" 1 1 1 0).opens "v" = false ∧
    ((Shader.mk 0).create_shader (sampleEnv false "" 1 1 1 0) "v" "f").2.take 5
      = [Call.print "Error Shader File Not loaded successfully\n",
         Call.glCreateShader Const.GL_VERTEX_SHADER,
         Call.glShaderSource 1 "", Call.glCompileShader 1,
         Call.glGetShaderiv 1 Const.GL_COMPILE_STATUS] ∧
    ((Shader.mk 0).create_shader (sampleEnv true "src" 1 1 1 0) "v" "f").2.take 4
      = [Call.glCreateShader Const.GL_VERTEX_SHADER,
         Call.glShaderSource 1 "src", Call.glCompileShader 1,
         Call.glGetShaderiv 1 Const.GL_COMPILE_STATUS] :=
  ⟨rfl,
   ((create_shader_on_read_failure (sampleEnv false "" 1 1 1 0) ⟨0⟩ "v" "f").1
      (Or.inl rfl)).2.2,
   ((create_shader_on_read_failure (sampleEnv true "src" 1 1 1 0) ⟨0⟩ "v" "f").2
      rfl rfl rfl rfl).2.2.1⟩

/-! ## Window creation -/

theorem setup_window_data_calls (r : Renderer) (cfg : Config) (loaded : Bool) :
    ∀ c ∈ r.setup_window_data cfg loaded, c.isStartup = false := by
  have h : (r.setup_window_data cfg loaded).all (fun c => !c.isStartup) = true := by
    cases loaded <;>
      cases hF : (!cfg.ENABLE_FULLSCREEN && cfg.ENABLE_FIXED_ASPECT_RATIO) <;>
      simp [Renderer.setup_window_data, hF, Call.isStartup]
  intro c hc
  simpa using List.all_eq_true.mp h c hc

theorem failed_startup_calls (r : Renderer) (cfg : Config) :
    ∀ c ∈ r.initialise_glfw cfg ++ (r.create_window cfg none).2.2, c.isStartup = true := by
  have h : (r.initialise_glfw cfg ++ (r.create_window cfg none).2.2).all
      (fun c => c.isStartup) = true := by
    cases hA : cfg.APPLE <;> cases hF : cfg.ENABLE_FULLSCREEN <;>
      simp [Renderer.initialise_glfw, Renderer.create_window, Renderer.terminate_glfw, hA, hF,
        Call.isStartup]
  intro c hc
  exact List.all_eq_true.mp h c hc

/-- C8: `create_window` returns false exactly when the backend yields no window, and then
its calls are the creation request (after the monitor query, when full screen), the error
print and, last, `glfwTerminate`. Whenever
`create_window` returns false in `main`, `main` returns -1, a non-zero status, having issued
only the calls of `initialise_glfw` and of `create_window`: none of the calls that
`setup_window_data` would make, such as `glfwMakeContextCurrent`, is issued. -/
theorem create_window_failure (A : Arith) (cfg : Config) (env : Env) (session : Session)
    (r : Renderer) (created : Window) :
    ((r.create_window cfg created).1 = false ↔ created = none) ∧
    (created = none →
      (r.create_window cfg created).2.2
        = (if cfg.ENABLE_FULLSCREEN then [Call.glfwGetPrimaryMonitor] else [])
          ++ [Call.glfwCreateWindow r.width r.height cfg.WINDOW_NAME cfg.ENABLE_FULLSCREEN,
              Call.print "Failed to create GLFW window\n", Call.glfwTerminate]) ∧
    ((r.create_window cfg session.created).1 = false →
      (main A cfg env session r).1 = -1 ∧
      (main A cfg env session r).1 ≠ 0 ∧
      (main A cfg env session r).2
        = r.initialise_glfw cfg ++ (r.create_window cfg session.created).2.2 ∧
      (main A cfg env session r).2.getLast? = some Call.glfwTerminate ∧
      (∀ w, Call.glfwMakeContextCurrent w ∉ (main A cfg env session r).2) ∧
      ∀ (r2 : Renderer) (cfg2 : Config) (loaded : Bool),
        ∀ c ∈ r2.setup_window_data cfg2 loaded, c ∉ (main A cfg env session r).2) := by
  refine ⟨?_, ?_, ?_⟩
  · cases created <;> simp [Renderer.create_window]
  · intro h
    cases hF : cfg.ENABLE_FULLSCREEN <;>
      simp [Renderer.create_window, Renderer.terminate_glfw, h, hF]
  · intro h
    have hc : session.created = none := by
      cases hs : session.created with
      | none => rfl
      | some w => simp [Renderer.create_window, hs] at h
    have hm : main A cfg env session r
        = (-1, r.initialise_glfw cfg ++ (r.create_window cfg session.created).2.2) := by
      simp [main, Renderer.create_window, hc]
    rw [hm]
    refine ⟨rfl, by simp, rfl, ?_, ?_, ?_⟩
    · cases hF : cfg.ENABLE_FULLSCREEN <;>
        simp [Renderer.create_window, Renderer.terminate_glfw, hc, hF]
    · intro w
      cases hA : cfg.APPLE <;> cases hF : cfg.ENABLE_FULLSCREEN <;>
        simp [Renderer.initialise_glfw, Renderer.create_window, Renderer.terminate_glfw,
          hc, hA, hF]
    · intro r2 cfg2 loaded c hmem
      intro hin
      rw [hc] at hin
      have h1 := failed_startup_calls r cfg c hin
      have h2 := setup_window_data_calls r2 cfg2 loaded c hmem
      rw [h1] at h2
      exact absurd h2 (by decide)

/-- Witness of C8: the sample run of `main` in which the backend yields no window. -/
theorem create_window_failure_witness :
    ((Renderer.new 3 3 800 600).create_window sampleConfig (sampleSession none).created).1
      = false ∧
    (main Arith.exact sampleConfig (sampleEnv true "src" 1 1 1 0) (sampleSession none)
      (Renderer.new 3 3 800 600)).1 = -1 :=
  ⟨rfl, ((create_window_failure Arith.exact sampleConfig (sampleEnv true "src" 1 1 1 0)
    (sampleSession none) (Renderer.new 3 3 800 600) none).2.2 rfl).1⟩

/-! ## Absent uniform names -/

/-- C10 as stated fails: in the sample run where every lookup answers -1, `set_float` of
the name "missing" still issues `glUniform1f(-1, 1)`; so it is not true that for an absent
name no setter issues a uniform-write call. -/
theorem absent_uniform_write_not_skipped :
    ¬ ∀ (env : Env) (s : Shader) (name : String) (v : Setter),
        env.glGetUniformLocation s.id name = -1 →
        ∀ c ∈ s.set env name v, c.isUniformWrite = false := by
  intro h
  have h1 := h (sampleEnv true "src" 1 1 1 (-1)) ⟨3⟩ "missing" (Setter.set_float 1) rfl
    (Call.glUniform1f (-1) 1)
  simp [Shader.set, Shader.set_float, sampleEnv, Call.isUniformWrite] at h1

/-- C10, amended: for every shader and every name whose lookup returns -1, each setter of
the `set` family issues exactly the lookup followed by exactly one uniform-write call that
carries the location -1; the code never tests the location. On any backend whose state is
left unchanged by a location lookup and by a uniform write to location -1 (`step` runs one
call), the state after the setter is the state before it. -/
theorem absent_uniform_write_at_minus_one (env : Env) (s : Shader) (name : String)
    (v : Setter) {σ : Type} (step : σ → Call → σ)
    (hlookup : ∀ st p n, step st (Call.glGetUniformLocation p n) = st)
    (hignore : ∀ st c, c.uniformLocation = some (-1) → step st c = st)
    (habsent : env.glGetUniformLocation s.id name = -1) :
    (∃ w, s.set env name v = [Call.glGetUniformLocation s.id name, w] ∧
      w.isUniformWrite = true ∧ w.uniformLocation = some (-1)) ∧
    ∀ st, (s.set env name v).foldl step st = st := by
  have h1 : ∃ w, s.set env name v = [Call.glGetUniformLocation s.id name, w] ∧
      w.isUniformWrite = true ∧ w.uniformLocation = some (-1) := by
    cases v <;>
      exact ⟨_, rfl, rfl, by simp [Call.uniformLocation, habsent]⟩
  refine ⟨h1, fun st => ?_⟩
  obtain ⟨w, hw, -, hloc⟩ := h1
  rw [hw]
  simp [hlookup, hignore _ _ hloc]

/-- Witness of the amended C10: `set_vec3` of an absent name in the sample run where every
lookup answers -1, on a backend that counts the writes it applies. -/
theorem absent_uniform_write_at_minus_one_witness :
    (sampleEnv true "src" 1 1 1 (-1)).glGetUniformLocation 3 "missing" = -1 ∧
    ((Shader.mk 3).set (sampleEnv true "src" 1 1 1 (-1)) "missing"
        (Setter.set_vec3 1 2 3)).foldl
      (fun (n : ℕ) c =>
        if c.isUniformWrite = true ∧ c.uniformLocation ≠ some (-1) then n + 1 else n) 0
      = 0 :=
  ⟨rfl, (absent_uniform_write_at_minus_one (sampleEnv true "src" 1 1 1 (-1)) ⟨3⟩ "missing"
    (Setter.set_vec3 1 2 3)
    (fun (n : ℕ) c =>
      if c.isUniformWrite = true ∧ c.uniformLocation ≠ some (-1) then n + 1 else n)
    (fun _ _ _ => rfl) (fun st c hc => by simp [hc]) rfl).2 0⟩

/-! ## Material -/

/-- C11 as stated fails: `Material(ambient, diffuse, specular, 0)` is a value produced by
the four-argument constructor and its shininess is 0, so not every constructed `Material`
has `shininess > 0`. -/
theorem material_shininess_not_always_positive :
    ¬ ∀ (d : MaterialDefaults) (ambient_ diffuse_ specular_ : Vec3) (shininess_ : Scalar),
        0 < (Material.new d).shininess ∧
        0 < (Material.ofColors d ambient_ diffuse_ specular_ shininess_).shininess := by
  intro h
  have h1 := (h sampleMaterialDefaults ⟨0, 0, 0⟩ ⟨0, 0, 0⟩ ⟨0, 0, 0⟩ 0).2
  simp [Material.ofColors] at h1

/-- C11, amended: the default constructor produces `shininess = 64 > 0`; the constructor
`Material(ambient, diffuse, specular, shininess)` stores its last argument unchecked, so the
produced shininess equals that argument (64 when the argument is left to its default) and is
positive exactly when the argument is. -/
theorem material_shininess (d : MaterialDefaults) (ambient_ diffuse_ specular_ : Vec3)
    (shininess_ : Scalar) :
    (Material.new d).shininess = 64 ∧
    0 < (Material.new d).shininess ∧
    (Material.ofColors d ambient_ diffuse_ specular_ shininess_).shininess = shininess_ ∧
    (0 < (Material.ofColors d ambient_ diffuse_ specular_ shininess_).shininess
      ↔ 0 < shininess_) ∧
    (Material.ofColorsDefaultShininess d ambient_ diffuse_ specular_).shininess = 64 ∧
    0 < (Material.ofColorsDefaultShininess d ambient_ diffuse_ specular_).shininess := by
  refine ⟨rfl, ?_, rfl, Iff.rfl, rfl, ?_⟩
  · show (0 : Scalar) < 64
    norm_num
  · show (0 : Scalar) < 64
    norm_num

/-! ## Shader clock -/

theorem advanceTotalTime_range (tt d : Scalar) (h0 : 0 ≤ tt) (h1 : tt ≤ 300) (hd0 : 0 ≤ d)
    (hd1 : d ≤ 300) :
    0 ≤ advanceTotalTime Arith.exact tt d ∧ advanceTotalTime Arith.exact tt d ≤ 300 ∧
    (advanceTotalTime Arith.exact tt d = tt + d ∨ advanceTotalTime Arith.exact tt d = tt + d - 300) := by
  have e : advanceTotalTime Arith.exact tt d = if tt + d > 300 then tt + d - 300 else tt + d := rfl
  rw [e]
  split_ifs with h
  · exact ⟨by linarith, by linarith, Or.inr rfl⟩
  · exact ⟨by linarith, by linarith, Or.inl rfl⟩

theorem advanceTotalTime_le (tt d : Scalar) (h1 : tt ≤ 300) (hd1 : d ≤ 300) :
    advanceTotalTime Arith.exact tt d ≤ 300 := by
  have e : advanceTotalTime Arith.exact tt d = if tt + d > 300 then tt + d - 300 else tt + d := rfl
  rw [e]
  split_ifs with h
  · linarith
  · linarith

theorem frame_state (env : Env) (shdr : Shader) (tex : Texture) (varray : VertexArray)
    (st : LoopState) (f : FrameInput) :
    (frame Arith.exact env shdr tex varray st f).1.totalTime
      = advanceTotalTime Arith.exact st.totalTime (f.now - st.renderer.previousTime) ∧
    (frame Arith.exact env shdr tex varray st f).1.renderer.previousTime = f.now ∧
    (frame Arith.exact env shdr tex varray st f).1.renderer.deltaTime
      = f.now - st.renderer.previousTime :=
  ⟨rfl, rfl, rfl⟩

theorem frame_floats (env : Env) (shdr : Shader) (tex : Texture) (varray : VertexArray)
    (st : LoopState) (f : FrameInput) (h1 : st.totalTime ≤ 300)
    (hd1 : f.now - st.renderer.previousTime ≤ 300) :
    (frame Arith.exact env shdr tex varray st f).2.all (Call.floatAtMost 300) = true := by
  have hr := advanceTotalTime_le st.totalTime (f.now - st.renderer.previousTime) h1 hd1
  simp only [frame, Renderer.new_frame, Renderer.check_key, Renderer.swap_buffers,
    Shader.use, Shader.set_float, Shader.set_vec2, Shader.set_texture, Shader.set_int,
    VertexArray.draw_indices, VertexArray.bind_vao, VertexArray.unbind_vao]
  simp only [List.all_append, List.all_cons, List.all_nil, Call.floatAtMost, Bool.and_true,
    Bool.true_and, Bool.and_eq_true, decide_eq_true_eq]
  repeat' (first
    | exact hr | exact hd1
    | (split_ifs <;> rfl)
    | constructor)

theorem renderLoop_floats (env : Env) (shdr : Shader) (tex : Texture) (varray : VertexArray)
    (frames : List FrameInput) :
    ∀ st : LoopState, st.totalTime ≤ 300 →
      frameDeltasAtMost 300 st.renderer.previousTime frames = true →
      (renderLoop Arith.exact env shdr tex varray st frames).2.all (Call.floatAtMost 300) = true ∧
      (renderLoop Arith.exact env shdr tex varray st frames).1.totalTime ≤ 300 := by
  induction frames with
  | nil =>
    intro st h1 _
    exact ⟨rfl, h1⟩
  | cons f rest ih =>
    intro st h1 hb
    simp only [frameDeltasAtMost, Bool.and_eq_true, decide_eq_true_eq] at hb
    obtain ⟨hd1, hrest⟩ := hb
    have hfl := frame_floats env shdr tex varray st f h1 hd1
    have hst := frame_state env shdr tex varray st f
    have h1n : (frame Arith.exact env shdr tex varray st f).1.totalTime ≤ 300 := by
      rw [hst.1]
      exact advanceTotalTime_le st.totalTime (f.now - st.renderer.previousTime) h1 hd1
    have hih := ih (frame Arith.exact env shdr tex varray st f).1 h1n (by rw [hst.2.1]; exact hrest)
    cases he : f.escapePressed
    · simp only [renderLoop, he, Bool.false_eq_true, if_false]
      refine ⟨?_, hih.2⟩
      simp only [List.all_append, Bool.and_eq_true]
      exact ⟨⟨rfl, hfl⟩, hih.1⟩
    · simp only [renderLoop, he, if_true]
      refine ⟨?_, h1n⟩
      simp only [List.all_append, Bool.and_eq_true]
      exact ⟨⟨rfl, hfl⟩, rfl⟩

theorem create_shader_floats (env : Env) (s : Shader) (vp fp : String) (hi : Scalar) :
    (s.create_shader env vp fp).2.all (Call.floatAtMost hi) = true := by
  rcases read_sources_calls env vp fp with h | h <;>
    by_cases hv : env.compileStatus (env.glCreateShader Const.GL_VERTEX_SHADER) = 0 <;>
    by_cases hf : env.compileStatus (env.glCreateShader Const.GL_FRAGMENT_SHADER) = 0 <;>
    by_cases hl : env.linkStatus env.glCreateProgram = 0 <;>
    simp [Shader.create_shader, Shader.compile_shader, Shader.check_compile_errors,
      hv, hf, hl, h, Call.floatAtMost]

theorem main_floats (cfg : Config) (env : Env) (session : Session) (r : Renderer)
    (h : frameDeltasAtMost 300 session.startTime session.frames = true) :
    (main Arith.exact cfg env session r).2.all (Call.floatAtMost 300) = true := by
  cases hc : session.created with
  | none =>
    cases hA : cfg.APPLE <;> cases hF : cfg.ENABLE_FULLSCREEN <;>
      simp [main, Renderer.create_window, Renderer.initialise_glfw, Renderer.terminate_glfw,
        hc, hA, hF, Call.floatAtMost]
  | some w =>
    have hloop := renderLoop_floats env
      (Shader.fromPaths env (env.get_path "shaders/2dshaders/shaderToy.vs")
        (env.get_path "shaders/2dshaders/shaderToy.fs")).1
      { id := session.textureId }
      (VertexArray.generate_buffers ⟨0, 0, 0⟩ session.vao session.vbo session.ebo).1
      session.frames
      { renderer := ({ r with window := some w }.start_timer Arith.exact session.startTime).1,
        totalTime := 0, bkgColor := ⟨1 / 5, 3 / 10, 1 / 5, 1⟩, drawOption := 2,
        showFrameRate := false, lockFrameRate := false }
      (by norm_num) h
    have hsetup : ∀ (r2 : Renderer) (loaded : Bool),
        (r2.setup_window_data cfg loaded).all (Call.floatAtMost 300) = true := by
      intro r2 loaded
      cases loaded <;>
        cases hX : (!cfg.ENABLE_FULLSCREEN && cfg.ENABLE_FIXED_ASPECT_RATIO) <;>
        simp [Renderer.setup_window_data, hX, Call.floatAtMost]
    have hshader := create_shader_floats env (Shader.new env)
      (env.get_path "shaders/2dshaders/shaderToy.vs")
      (env.get_path "shaders/2dshaders/shaderToy.fs") 300
    cases hA : cfg.APPLE <;> cases hF : cfg.ENABLE_FULLSCREEN <;>
      simp [main, Renderer.create_window, Renderer.initialise_glfw, Renderer.terminate_glfw,
        hc, hA, hF, Call.floatAtMost, hsetup, Shader.fromPaths, hshader,
        VertexArray.generate_buffers, VertexArray.bind_vao, VertexArray.bind_vbo,
        VertexArray.bind_ebo, VertexArray.set_attribute_array, VertexArray.unbind_vbo,
        VertexArray.unbind_vao, VertexArray.free_data, Shader.free_data,
        Renderer.start_timer] <;>
      simpa [Shader.fromPaths, VertexArray.generate_buffers, Renderer.start_timer,
        Call.floatAtMost] using hloop.1

/-- C12: in exact rational arithmetic, for every `totalTime` in `[0, 300]` and every frame
delta in `[0, 300]` the per-frame update (`totalTime += delta`, then `totalTime -= 300` when
it exceeds 300) yields a value in `[0, 300]` equal to `totalTime + delta` or to
`totalTime + delta - 300`. Each frame of the render loop applies this update with the delta
of `new_frame` and passes the result as the uniform `iTime`. Hence in every run of `main`
(where `totalTime` starts at 0) in which no frame delta exceeds 300, no float uniform
write, that of `iTime` included, carries a value above 300. -/
theorem shader_clock_wrap_around :
    (∀ totalTime delta : Scalar,
      0 ≤ totalTime → totalTime ≤ 300 → 0 ≤ delta → delta ≤ 300 →
        0 ≤ advanceTotalTime Arith.exact totalTime delta ∧
        advanceTotalTime Arith.exact totalTime delta ≤ 300 ∧
        (advanceTotalTime Arith.exact totalTime delta = totalTime + delta ∨
         advanceTotalTime Arith.exact totalTime delta = totalTime + delta - 300)) ∧
    (∀ (env : Env) (shdr : Shader) (tex : Texture) (varray : VertexArray) (st : LoopState)
        (f : FrameInput),
      (frame Arith.exact env shdr tex varray st f).1.renderer.deltaTime
        = f.now - st.renderer.previousTime ∧
      (frame Arith.exact env shdr tex varray st f).1.totalTime
        = advanceTotalTime Arith.exact st.totalTime (frame Arith.exact env shdr tex varray st f).1.renderer.deltaTime ∧
      Call.glUniform1f (env.glGetUniformLocation shdr.id "iTime")
          (frame Arith.exact env shdr tex varray st f).1.totalTime
        ∈ (frame Arith.exact env shdr tex varray st f).2) ∧
    (∀ (cfg : Config) (env : Env) (session : Session) (r : Renderer),
      frameDeltasAtMost 300 session.startTime session.frames = true →
        ∀ c ∈ (main Arith.exact cfg env session r).2, ∀ (location : Int) (v : Scalar),
          c = Call.glUniform1f location v → v ≤ 300) := by
  refine ⟨advanceTotalTime_range, ?_, ?_⟩
  · intro env shdr tex varray st f
    refine ⟨rfl, rfl, ?_⟩
    simp [frame, Shader.set_float]
  · intro cfg env session r h c hc location v hv
    have hall := List.all_eq_true.mp (main_floats cfg env session r h) c hc
    subst hv
    simpa [Call.floatAtMost] using hall

/-- Witness of C12: the update from 250 with delta 100 wraps to 50, and the sample run of
`main` with frames read at 200, 400 and 700 after a start at 0 writes no float uniform
above 300. -/
theorem shader_clock_wrap_around_witness :
    advanceTotalTime Arith.exact 250 100 = 50 ∧
    frameDeltasAtMost 300 0 [sampleFrame 200, sampleFrame 400, sampleFrame 700] = true ∧
    ∀ c ∈ (main Arith.exact sampleConfig (sampleEnv true "src" 1 1 1 0)
            { sampleSession (some 1) with
              frames := [sampleFrame 200, sampleFrame 400, sampleFrame 700] }
            (Renderer.new 3 3 800 600)).2,
      ∀ (location : Int) (v : Scalar), c = Call.glUniform1f location v → v ≤ 300 := by
  have hb : frameDeltasAtMost 300 0 [sampleFrame 200, sampleFrame 400, sampleFrame 700]
      = true := by
    simp [frameDeltasAtMost, sampleFrame]
    norm_num
  have hstep := shader_clock_wrap_around.1 250 100 (by norm_num) (by norm_num) (by norm_num)
    (by norm_num)
  refine ⟨?_, hb, ?_⟩
  · rcases hstep.2.2 with h | h
    · have := hstep.2.1
      rw [h] at this
      norm_num at this
    · rw [h]; norm_num
  · exact shader_clock_wrap_around.2.2 sampleConfig (sampleEnv true "src" 1 1 1 0)
      { sampleSession (some 1) with
        frames := [sampleFrame 200, sampleFrame 400, sampleFrame 700] }
      (Renderer.new 3 3 800 600) hb

end ShaderToy
